import Mathlib

/-!
Verification of the Meteoserver repository (sun-forecast and hourly-forecast
data readers) against its natural-language specification.

The repository consists of two Python modules:

* `meteoserver/sundata.py` — fetches/reads "Zon Actueel" JSON documents and
  converts them to typed tables (`extract_Sun_dataframes_from_dict`), plus a
  serializer back to JSON (`write_json_file_sunData`).
* `meteoserver/uurverwachting.py` — same for the hourly weather forecast,
  without any column coercion.

The embedding below models the JSON documents, the (small) fragment of the
pandas dataframe API the code uses, and the repository's functions as pure
Lean functions.  External effects (HTTP GET, file reads) are modelled as
function-valued oracles passed explicitly.
-/

/-- A JSON value as produced by `json.loads` for these feeds.  `jnan` and
`jinf` model the (non-standard, but produced and accepted by Python's `json`
module with its default `allow_nan=True`) float `NaN` and
`Infinity`/`-Infinity` literals. -/
inductive JVal where
  | jstr (s : String)
  | jnum (q : ℚ)
  | jnull
  | jnan
  | jinf (neg : Bool)
  deriving DecidableEq, Repr

/-- A JSON object record (a Python dict decoded from JSON): an ordered
association list with (for documents produced by `json.loads`) unique keys. -/
abbrev Record : Type := List (String × JVal)

/-- A timestamp as produced by `pd.to_datetime(..., format='%d-%m-%Y %H:%M')`. -/
structure DateTime where
  year : ℕ
  month : ℕ
  day : ℕ
  hour : ℕ
  minute : ℕ
  deriving DecidableEq, Repr

/-- One dataframe cell.  `cnan` models both a missing value (NaN, filled in by
`pd.DataFrame.from_dict` for keys absent from a record) and NaT (produced by
`pd.to_datetime` on NaN).  `cinf` is a float infinity (as produced by
`pd.to_numeric` on `inf`/`-inf` strings).  `ctime` is a `pd.Timestamp`. -/
inductive Cell where
  | cstr (s : String)
  | cnum (q : ℚ)
  | cnan
  | cinf (neg : Bool)
  | ctime (t : DateTime)
  deriving DecidableEq, Repr

/-- A pandas dataframe: an ordered list of named columns.  All columns built
by the operations below have one entry per source record. -/
structure DF where
  cols : List (String × List Cell)
  deriving DecidableEq, Repr

/- ### Parsing helpers: the `%d-%m-%Y %H:%M` format and numeric strings -/

/-- Parse exactly two decimal digits. -/
def digit2 : List Char → Option (ℕ × List Char)
  | c1 :: c2 :: r =>
    if c1.isDigit ∧ c2.isDigit then some ((c1.toNat - 48) * 10 + (c2.toNat - 48), r)
    else none
  | _ => none

/-- Parse exactly four decimal digits. -/
def digit4 (cs : List Char) : Option (ℕ × List Char) :=
  match digit2 cs with
  | none => none
  | some (a, r1) =>
    match digit2 r1 with
    | none => none
    | some (b, r2) => some (a * 100 + b, r2)

/-- Expect a fixed literal character. -/
def expectChar (c : Char) : List Char → Option (List Char)
  | c' :: r => if c' = c then some r else none
  | _ => none

def isLeap (y : ℕ) : Bool := (y % 4 = 0 && y % 100 ≠ 0) || y % 400 = 0

def daysInMonth (y m : ℕ) : ℕ :=
  if m = 2 then (if isLeap y then 29 else 28)
  else if m = 4 ∨ m = 6 ∨ m = 9 ∨ m = 11 then 30
  else 31

/-- Calendar/clock validity as enforced by `pd.to_datetime`. -/
def validDT (t : DateTime) : Bool :=
  1 ≤ t.month && t.month ≤ 12 && 1 ≤ t.day && t.day ≤ daysInMonth t.year t.month &&
    t.hour ≤ 23 && t.minute ≤ 59

/-- Parse a (zero-padded, as delivered by the Meteoserver feed) string in the
format `%d-%m-%Y %H:%M`, validating the calendar date and the clock time. -/
def parseDT (cs : List Char) : Option DateTime :=
  match digit2 cs with
  | none => none
  | some (dd, r1) =>
    match expectChar (Char.ofNat 45) r1 with
    | none => none
    | some r2 =>
      match digit2 r2 with
      | none => none
      | some (mm, r3) =>
        match expectChar (Char.ofNat 45) r3 with
        | none => none
        | some r4 =>
          match digit4 r4 with
          | none => none
          | some (yy, r5) =>
            match expectChar (Char.ofNat 32) r5 with
            | none => none
            | some r6 =>
              match digit2 r6 with
              | none => none
              | some (hh, r7) =>
                match expectChar (Char.ofNat 58) r7 with
                | none => none
                | some r8 =>
                  match digit2 r8 with
                  | none => none
                  | some (mi, r9) =>
                    if r9 = [] ∧ validDT ⟨yy, mm, dd, hh, mi⟩ then
                      some ⟨yy, mm, dd, hh, mi⟩
                    else none

def parseDTs (s : String) : Option DateTime := parseDT s.data

/-- Parse a (zero-padded) time-of-day string in the format `%H:%M`. -/
def parseHM (cs : List Char) : Option (ℕ × ℕ) :=
  match digit2 cs with
  | none => none
  | some (hh, r1) =>
    match expectChar (Char.ofNat 58) r1 with
    | none => none
    | some r2 =>
      match digit2 r2 with
      | none => none
      | some (mi, r3) =>
        if r3 = [] ∧ hh ≤ 23 ∧ mi ≤ 59 then some (hh, mi) else none

def parseHMs (s : String) : Option (ℕ × ℕ) := parseHM s.data

def digitsToNat (ds : List Char) : ℕ := ds.foldl (fun n c => 10 * n + (c.toNat - 48)) 0

/-- The result of a successful `pd.to_numeric` string conversion: a finite
number, float NaN, or a (signed) float infinity. -/
inductive NumResult where
  | num (q : ℚ)
  | nan
  | inf (neg : Bool)
  deriving DecidableEq, Repr

/-- Strip leading and trailing whitespace, as the `pd.to_numeric` string
parser does. -/
def stripWS (cs : List Char) : List Char :=
  ((cs.dropWhile Char.isWhitespace).reverse.dropWhile Char.isWhitespace).reverse

/-- The value of a mantissa with digits `intPart` before the decimal point
and (when a point is present) `fracPart` after it. -/
def mantissaVal (intPart : List Char) (fracPart : Option (List Char)) : ℚ :=
  match fracPart with
  | none => (digitsToNat intPart : ℚ)
  | some [] => (digitsToNat intPart : ℚ)
  | some f => (digitsToNat (intPart ++ f) : ℚ) / ((10 : ℚ) ^ f.length)

/-- Parse a string the way `pd.to_numeric` does: surrounding whitespace is
ignored; an optional sign is followed either by one of the words `nan`,
`inf`, `infinity` (case-insensitive) or by a decimal mantissa — digits with
an optional fractional part, at least one digit in total — with an optional
`e`/`E` exponent (optionally signed, at least one digit).  Anything else
(and in particular any other letter) is a conversion failure. -/
def parseNumeric (s : String) : Option NumResult :=
  let cs := stripWS s.data
  let neg : Bool := cs.head? = some (Char.ofNat 45)
  let cs := if cs.head? = some (Char.ofNat 45) ∨ cs.head? = some (Char.ofNat 43)
    then cs.tail else cs
  let low := cs.map Char.toLower
  if low = ("nan").data then some NumResult.nan
  else if low = ("inf").data ∨ low = ("infinity").data then some (NumResult.inf neg)
  else
    let intPart := cs.takeWhile Char.isDigit
    let rest1 := cs.dropWhile Char.isDigit
    let (fracPart, rest2) :=
      match rest1 with
      | c :: r =>
        if c = Char.ofNat 46 then (some (r.takeWhile Char.isDigit), r.dropWhile Char.isDigit)
        else ((none : Option (List Char)), rest1)
      | [] => ((none : Option (List Char)), rest1)
    if intPart.length + (match fracPart with | some f => f.length | none => 0) = 0 then
      none
    else
      match rest2 with
      | [] =>
        let n := mantissaVal intPart fracPart
        some (NumResult.num (if neg then -n else n))
      | c :: r =>
        if c = Char.ofNat 101 ∨ c = Char.ofNat 69 then
          let eneg : Bool := r.head? = some (Char.ofNat 45)
          let r2 := if r.head? = some (Char.ofNat 45) ∨ r.head? = some (Char.ofNat 43)
            then r.tail else r
          if r2 ≠ [] ∧ r2.all Char.isDigit then
            let mant := mantissaVal intPart fracPart
            let v : ℚ := if eneg then mant / ((10 : ℚ) ^ digitsToNat r2)
              else mant * ((10 : ℚ) ^ digitsToNat r2)
            some (NumResult.num (if neg then -v else v))
          else none
        else none

/-- The finite-number fragment of `parseNumeric` (the only values the
well-formed feed carries). -/
def parseNum (s : String) : Option ℚ :=
  match parseNumeric s with
  | some (NumResult.num q) => some q
  | _ => none

/- ### The pandas fragment used by the repository -/

/-- Lookup of a key in a decoded JSON record. -/
def lookupRec (r : Record) (k : String) : Option JVal :=
  (List.find? (fun p => p.1 == k) r).map Prod.snd

/-- The cell a JSON value populates, keeping its native JSON type: strings
stay strings, numbers stay numeric (null/NaN become a missing value). -/
def cellOfJVal : JVal → Cell
  | JVal.jstr s => Cell.cstr s
  | JVal.jnum q => Cell.cnum q
  | JVal.jnull => Cell.cnan
  | JVal.jnan => Cell.cnan
  | JVal.jinf b => Cell.cinf b

/-- The value `pd.DataFrame.from_dict` places at column `k` for record `r`:
the record's own value, or NaN when the key is absent from this record. -/
def rawCell (k : String) (r : Record) : Cell :=
  match lookupRec r k with
  | some v => cellOfJVal v
  | none => Cell.cnan

/-- Accumulate keys in first-seen order (skipping keys already collected). -/
def insertKeys (acc : List String) (ks : List String) : List String :=
  ks.foldl (fun a k => if k ∈ a then a else a ++ [k]) acc

/-- The column names `pd.DataFrame.from_dict` derives from a list of records:
all keys, in order of first appearance. -/
def dfKeys (recs : List Record) : List String :=
  recs.foldl (fun acc r => insertKeys acc (r.map Prod.fst)) []

/-- A dataframe whose column `k` holds `F k r` for each source record `r`,
in the given column order. -/
def mapDF (keys : List String) (rows : List Record) (F : String → Record → Cell) : DF :=
  ⟨keys.map (fun k => (k, rows.map (F k)))⟩

/-- Overwrite one column's per-record cell function (the effect of a single
column assignment on a dataframe in `mapDF` form). -/
def updCell (k : String) (g : Record → Cell) (F : String → Record → Cell) :
    String → Record → Cell :=
  fun k' => if k' = k then g else F k'

/-- `pd.DataFrame.from_dict` on a list of records: one row per record,
columns in first-seen key order, missing keys filled with NaN. -/
def DataFrame_from_dict (recs : List Record) : DF :=
  mapDF (dfKeys recs) recs rawCell

/-- Dataframe column attribute access (`df.col`); raises `AttributeError`
when no such column exists. -/
def DF.getCol (df : DF) (k : String) : Except String (List Cell) :=
  match df.cols.find? (fun p => p.1 == k) with
  | some p => Except.ok p.2
  | none => Except.error (("AttributeError: no column ") ++ k)

/-- Dataframe column attribute assignment (`df.col = values`) on an existing
column: replaces the column's values in place, keeping its position. -/
def DF.setCol (df : DF) (k : String) (cells : List Cell) : DF :=
  ⟨df.cols.map (fun p => if p.1 == k then (k, cells) else p)⟩

def DF.colNames (df : DF) : List String := df.cols.map Prod.fst

/-- Number of rows of a dataframe built from a list of records. -/
def DF.nrows (df : DF) : ℕ :=
  match df.cols with
  | [] => 0
  | c :: _ => c.2.length

/-- `Series.str.slice(0, n)` on one element: slices strings, and (as the
pandas `.str` accessor does on object columns) yields NaN for non-strings. -/
def strSlice (n : ℕ) : Cell → Cell
  | Cell.cstr s => Cell.cstr (String.mk (s.data.take n))
  | _ => Cell.cnan

/-- One element of `current.cet.str.slice(0,10) + ' ' + current.sr`:
string concatenation; any non-string operand raises `TypeError` (as the
elementwise `+` on an object Series does). -/
def spliceCell (cetc src : Cell) : Except String Cell :=
  match strSlice 10 cetc, src with
  | Cell.cstr d, Cell.cstr t => Except.ok (Cell.cstr (d ++ (" ") ++ t))
  | _, _ => Except.error ("TypeError: can only concatenate str to str")

/-- `pd.to_numeric` on one element: numeric strings are parsed, numbers pass
through, NaN passes through, anything else raises.  (`pd.to_numeric` is never
applied to a datetime column by this code.) -/
def toNumericCell : Cell → Except String Cell
  | Cell.cstr s =>
    match parseNumeric s with
    | some (NumResult.num q) => Except.ok (Cell.cnum q)
    | some NumResult.nan => Except.ok Cell.cnan
    | some (NumResult.inf b) => Except.ok (Cell.cinf b)
    | none => Except.error (("ValueError: unable to parse ") ++ s)
  | Cell.cnum q => Except.ok (Cell.cnum q)
  | Cell.cnan => Except.ok Cell.cnan
  | Cell.cinf b => Except.ok (Cell.cinf b)
  | Cell.ctime _ => Except.error ("TypeError: to_numeric on datetime")

/-- `pd.to_datetime(…, format='%d-%m-%Y %H:%M')` on one element: parses
strings against the format, maps NaN to NaT, passes timestamps through, and
raises on anything else. -/
def toDatetimeCell : Cell → Except String Cell
  | Cell.cstr s =>
    match parseDTs s with
    | some t => Except.ok (Cell.ctime t)
    | none => Except.error (("ValueError: time data does not match format: ") ++ s)
  | Cell.cnan => Except.ok Cell.cnan
  | Cell.ctime t => Except.ok (Cell.ctime t)
  | Cell.cnum _ => Except.error ("TypeError: to_datetime on number with format")
  | Cell.cinf _ => Except.error ("TypeError: to_datetime on float with format")

/-- `df.k = pd.to_numeric(df.k).values` — read the column, coerce every
element to a number, write the column back. -/
def DF.numCol (df : DF) (k : String) : Except String DF := do
  let cells ← df.getCol k
  let cells2 ← cells.mapM toNumericCell
  pure (df.setCol k cells2)

/-- `df.k = pd.to_datetime(df.k, format='%d-%m-%Y %H:%M')`. -/
def DF.dtCol (df : DF) (k : String) : Except String DF := do
  let cells ← df.getCol k
  let cells2 ← cells.mapM toDatetimeCell
  pure (df.setCol k cells2)

/-- `df.to_dict(orient='records')`: one record per row, fields in column
order, holding the cell values. -/
def DF.toRecords (df : DF) : List (List (String × Cell)) :=
  (List.range df.nrows).map (fun i => df.cols.map (fun p => (p.1, p.2.getD i Cell.cnan)))

/-- What Python's `json.dump` does with one cell value: strings and numbers
are encoded, float NaN is emitted (as the non-standard `NaN` literal, since
`allow_nan` defaults to `True`), and a `pd.Timestamp` raises
`TypeError: Object of type Timestamp is not JSON serializable`. -/
def jsonEncodeCell : Cell → Except String JVal
  | Cell.cstr s => Except.ok (JVal.jstr s)
  | Cell.cnum q => Except.ok (JVal.jnum q)
  | Cell.cnan => Except.ok JVal.jnan
  | Cell.cinf b => Except.ok (JVal.jinf b)
  | Cell.ctime _ => Except.error ("TypeError: Object of type Timestamp is not JSON serializable")

/- ### The sun-dataset document and the repository's functions -/

/-- The decoded JSON document of the "Zon Actueel" dataset: an object with
keys `plaatsnaam`, `current` and `forecast`, each a list of records.  This is
both the shape `json.loads` delivers and the shape
`write_json_file_sunData` writes. -/
structure SunDoc where
  plaatsnaam : List Record
  current : List Record
  forecast : List Record
  deriving DecidableEq, Repr

/-- The decoded JSON document of the hourly-forecast dataset. -/
structure UurDoc where
  plaatsnaam : List Record
  data : List Record
  deriving DecidableEq, Repr

/-- `dataDict['plaatsnaam']` → dataframe → `.plaats[0]`: first element of the
`plaats` column (a `KeyError` when the dataframe is empty). -/
def headCell (cells : List Cell) : Except String Cell :=
  match cells.head? with
  | some c => Except.ok c
  | none => Except.error ("KeyError: 0")

/-- Lines 118–137 of `sundata.py`: splice the date part of `cet` into `sr`
and `ss` (while `cet` is still a string), parse both, then coerce the
numeric columns and parse `cet`. -/
def processCurrent (current : DF) : Except String DF := do
  let cet ← current.getCol ("cet")
  let sr ← current.getCol ("sr")
  let spliced ← (cet.zip sr).mapM (fun p => spliceCell p.1 p.2)
  let current := current.setCol ("sr") spliced
  let current ← current.dtCol ("sr")
  let cet2 ← current.getCol ("cet")
  let ss ← current.getCol ("ss")
  let spliced2 ← (cet2.zip ss).mapM (fun p => spliceCell p.1 p.2)
  let current := current.setCol ("ss") spliced2
  let current ← current.dtCol ("ss")
  let current ← current.numCol ("time")
  let current ← current.dtCol ("cet")
  let current ← current.numCol ("elev")
  let current ← current.numCol ("az")
  let current ← current.numCol ("temp")
  let current ← current.numCol ("gr")
  let current ← current.numCol ("sd")
  let current ← current.numCol ("tc")
  let current ← current.numCol ("vis")
  let current ← current.numCol ("prec")
  pure current

/-- Lines 143–157 of `sundata.py`: numeric-coerce the forecast columns and
parse `cet`. -/
def processForecast (forecast : DF) : Except String DF := do
  let forecast ← forecast.numCol ("time")
  let forecast ← forecast.dtCol ("cet")
  let forecast ← forecast.numCol ("elev")
  let forecast ← forecast.numCol ("az")
  let forecast ← forecast.numCol ("temp")
  let forecast ← forecast.numCol ("gr")
  let forecast ← forecast.numCol ("sd")
  let forecast ← forecast.numCol ("tc")
  let forecast ← forecast.numCol ("lc")
  let forecast ← forecast.numCol ("mc")
  let forecast ← forecast.numCol ("hc")
  let forecast ← forecast.numCol ("vis")
  let forecast ← forecast.numCol ("prec")
  pure forecast

/-- `extract_Sun_dataframes_from_dict` (sundata.py, lines 92–161). -/
def extract_Sun_dataframes_from_dict (dataDict : SunDoc) :
    Except String (Cell × DF × DF) := do
  let plaatsCol ← (DataFrame_from_dict dataDict.plaatsnaam).getCol ("plaats")
  let location ← headCell plaatsCol
  let current ← processCurrent (DataFrame_from_dict dataDict.current)
  let forecast ← processForecast (DataFrame_from_dict dataDict.forecast)
  pure (location, current, forecast)

/-- `extract_hourly_forecast_dataframes_from_dict` (uurverwachting.py,
lines 70–91): the `data` list is converted structurally, nothing else. -/
def extract_hourly_forecast_dataframes_from_dict (dataDict : UurDoc) : DF :=
  DataFrame_from_dict dataDict.data

/-- `write_json_file_sunData` (sundata.py, lines 164–203): rebuild the nested
document and JSON-encode it.  The file write itself is abstracted; the
returned value is the document written, and an `Except.error` is the
`TypeError` raised by `json.dump` on unencodable cells. -/
def write_json_file_sunData (_fileName : String) (location : String)
    (current forecast : DF) : Except String SunDoc := do
  let locationDict : Record := [(("plaats"), JVal.jstr location)]
  let currentDict ← current.toRecords.mapM (fun r => r.mapM (fun p => do
    let v ← jsonEncodeCell p.2
    pure (p.1, v)))
  let forecastDict ← forecast.toRecords.mapM (fun r => r.mapM (fun p => do
    let v ← jsonEncodeCell p.2
    pure (p.1, v)))
  pure ⟨[locationDict], currentDict, forecastDict⟩

/-- The return value of the public sun readers: a pair `(current, forecast)`
or a triple `(current, forecast, location)` depending on the `loc` flag. -/
inductive SunReturn where
  | two (current forecast : DF)
  | three (current forecast : DF) (retLoc : Cell)
  deriving DecidableEq, Repr

/-- `read_json_url_sunData` (sundata.py, lines 26–57).  `httpGet` models the
body text returned by `requests.get(url).text`; `jsonLoads` models
`json.loads` on that text. -/
def read_json_url_sunData (key location : String) (loc : Bool)
    (httpGet : String → String) (jsonLoads : String → Except String SunDoc) :
    Except String SunReturn := do
  let dataJSON := httpGet ((("https://data.meteoserver.nl/api/solar.php?locatie=")
    ++ location) ++ (("&key=") ++ key))
  let dataDict ← jsonLoads dataJSON
  let (retLoc, current, forecast) ← extract_Sun_dataframes_from_dict dataDict
  if loc then pure (SunReturn.three current forecast retLoc)
  else pure (SunReturn.two current forecast)

/-- `read_json_file_sunData` (sundata.py, lines 60–89).  `readFile` models
reading the named file's text; `jsonLoad` models `json.load`. -/
def read_json_file_sunData (fileJSON : String) (loc : Bool)
    (readFile : String → String) (jsonLoad : String → Except String SunDoc) :
    Except String SunReturn := do
  let dataDict ← jsonLoad (readFile fileJSON)
  let (location, current, forecast) ← extract_Sun_dataframes_from_dict dataDict
  if loc then pure (SunReturn.three current forecast location)
  else pure (SunReturn.two current forecast)

/-- `read_json_url_uurverwachting` (uurverwachting.py, lines 27–47). -/
def read_json_url_uurverwachting (key location : String)
    (httpGet : String → String) (jsonLoads : String → Except String UurDoc) :
    Except String DF := do
  let dataJSON := httpGet ((("https://data.meteoserver.nl/api/uurverwachting_gfs.php?locatie=")
    ++ location) ++ (("&key=") ++ key))
  let dataDict ← jsonLoads dataJSON
  pure (extract_hourly_forecast_dataframes_from_dict dataDict)

/-- `read_json_file_uurverwachting` (uurverwachting.py, lines 50–67). -/
def read_json_file_uurverwachting (fileJSON : String)
    (readFile : String → String) (jsonLoad : String → Except String UurDoc) :
    Except String DF := do
  let dataDict ← jsonLoad (readFile fileJSON)
  pure (extract_hourly_forecast_dataframes_from_dict dataDict)

/-- State-threaded version of the sun extractor: the input document is
threaded through every statement and returned alongside the result, making
explicit that no statement of `extract_Sun_dataframes_from_dict` writes into
the decoded JSON structure (all column splicing/coercion happens on the
freshly constructed dataframes). -/
def extract_Sun_dataframes_from_dict_st (dataDict : SunDoc) :
    Except String ((Cell × DF × DF) × SunDoc) := do
  let plaatsCol ← (DataFrame_from_dict dataDict.plaatsnaam).getCol ("plaats")
  let location ← headCell plaatsCol
  let current ← processCurrent (DataFrame_from_dict dataDict.current)
  let forecast ← processForecast (DataFrame_from_dict dataDict.forecast)
  pure ((location, current, forecast), dataDict)

/-- State-threaded version of the hourly extractor (see
`extract_Sun_dataframes_from_dict_st`). -/
def extract_hourly_forecast_dataframes_from_dict_st (dataDict : UurDoc) : DF × UurDoc :=
  (extract_hourly_forecast_dataframes_from_dict dataDict, dataDict)

/- ### Well-formedness of sun-dataset documents

A document is well formed when it has the shape the extractor's docstring
describes and every field the extractor touches parses under the coercion
applied to it.  This is exactly the condition under which the Python code
runs to completion with fully typed columns. -/

/-- The value is a string in `%d-%m-%Y %H:%M` format. -/
def isDTStr : Option JVal → Bool
  | some (JVal.jstr s) => (parseDTs s).isSome
  | _ => false

/-- The value is a time-of-day string in `%H:%M` format. -/
def isHMStr : Option JVal → Bool
  | some (JVal.jstr s) => (parseHMs s).isSome
  | _ => false

/-- The value is numeric: a parseable numeric string or a JSON number. -/
def isNumVal : Option JVal → Bool
  | some (JVal.jstr s) => (parseNum s).isSome
  | some (JVal.jnum _) => true
  | _ => false

/-- JSON objects decoded by Python's `json.loads` have unique keys. -/
def recKeysNodup (r : Record) : Bool := decide (r.map Prod.fst).Nodup

/-- A well-formed record of the `current` list. -/
def currentRecOK (r : Record) : Bool :=
  recKeysNodup r &&
  isDTStr (lookupRec r ("cet")) &&
  isHMStr (lookupRec r ("sr")) &&
  isHMStr (lookupRec r ("ss")) &&
  isNumVal (lookupRec r ("time")) &&
  isNumVal (lookupRec r ("elev")) &&
  isNumVal (lookupRec r ("az")) &&
  isNumVal (lookupRec r ("temp")) &&
  isNumVal (lookupRec r ("gr")) &&
  isNumVal (lookupRec r ("sd")) &&
  isNumVal (lookupRec r ("tc")) &&
  isNumVal (lookupRec r ("vis")) &&
  isNumVal (lookupRec r ("prec"))

/-- A well-formed record of the `forecast` list. -/
def forecastRecOK (r : Record) : Bool :=
  recKeysNodup r &&
  isDTStr (lookupRec r ("cet")) &&
  isNumVal (lookupRec r ("time")) &&
  isNumVal (lookupRec r ("elev")) &&
  isNumVal (lookupRec r ("az")) &&
  isNumVal (lookupRec r ("temp")) &&
  isNumVal (lookupRec r ("gr")) &&
  isNumVal (lookupRec r ("sd")) &&
  isNumVal (lookupRec r ("tc")) &&
  isNumVal (lookupRec r ("lc")) &&
  isNumVal (lookupRec r ("mc")) &&
  isNumVal (lookupRec r ("hc")) &&
  isNumVal (lookupRec r ("vis")) &&
  isNumVal (lookupRec r ("prec"))

/-- A well-formed sun-dataset document: the location list's first record has
a `plaats` field, and both record lists are non-empty with every record
complete and parseable.  (Non-emptiness is required: on an empty list
`pd.DataFrame.from_dict` yields a dataframe with no columns at all, and the
very first column access raises `AttributeError`.) -/
def sunDocOK (doc : SunDoc) : Bool :=
  (match doc.plaatsnaam with
   | r :: _ => recKeysNodup r && (lookupRec r ("plaats")).isSome
   | [] => false) &&
  !doc.current.isEmpty && doc.current.all currentRecOK &&
  !doc.forecast.isEmpty && doc.forecast.all forecastRecOK

/- ### Specification-side description of the extracted columns -/

/-- The value of a successful elementwise coercion (only ever read off
coercions that are proved to succeed). -/
def exceptD (e : Except String Cell) : Cell :=
  match e with
  | Except.ok c => c
  | Except.error _ => Cell.cnan

/-- The numeric coercion of record `r`'s field `k`. -/
def numC (k : String) (r : Record) : Cell := exceptD (toNumericCell (rawCell k r))

/-- The timestamp coercion of record `r`'s field `k`. -/
def dtC (k : String) (r : Record) : Cell := exceptD (toDatetimeCell (rawCell k r))

/-- The spliced string `cet[0:10] + ' ' + r[k]` of record `r`. -/
def splC (k : String) (r : Record) : Cell :=
  exceptD (spliceCell (rawCell ("cet") r) (rawCell k r))

/-- The derived sunrise/sunset timestamp of record `r`: the spliced string,
parsed with format `%d-%m-%Y %H:%M`. -/
def sunC (k : String) (r : Record) : Cell := exceptD (toDatetimeCell (splC k r))

/-- The cell of column `k` of the fully processed `current` table, for source
record `r`: the raw `from_dict` cell, overwritten by the pipeline's column
assignments (latest assignment outermost, mirroring lines 120–137 of
`sundata.py`; the two inner shadowed `splC` layers are the intermediate
string-spliced `sr`/`ss` assignments that are immediately re-assigned their
parsed form). -/
def curCellF : String → Record → Cell :=
  updCell ("prec") (numC ("prec")) (updCell ("vis") (numC ("vis"))
    (updCell ("tc") (numC ("tc")) (updCell ("sd") (numC ("sd"))
    (updCell ("gr") (numC ("gr")) (updCell ("temp") (numC ("temp"))
    (updCell ("az") (numC ("az")) (updCell ("elev") (numC ("elev"))
    (updCell ("cet") (dtC ("cet")) (updCell ("time") (numC ("time"))
    (updCell ("ss") (sunC ("ss")) (updCell ("ss") (splC ("ss"))
    (updCell ("sr") (sunC ("sr")) (updCell ("sr") (splC ("sr"))
    rawCell)))))))))))))

/-- The cell of column `k` of the fully processed `forecast` table for source
record `r` (lines 145–157 of `sundata.py`). -/
def fcCellF : String → Record → Cell :=
  updCell ("prec") (numC ("prec")) (updCell ("vis") (numC ("vis"))
    (updCell ("hc") (numC ("hc")) (updCell ("mc") (numC ("mc"))
    (updCell ("lc") (numC ("lc")) (updCell ("tc") (numC ("tc"))
    (updCell ("sd") (numC ("sd")) (updCell ("gr") (numC ("gr"))
    (updCell ("temp") (numC ("temp")) (updCell ("az") (numC ("az"))
    (updCell ("elev") (numC ("elev")) (updCell ("cet") (dtC ("cet"))
    (updCell ("time") (numC ("time"))
    rawCell))))))))))))

/- ### Serialization helpers (for the `write_json_file_sunData` claims) -/

/-- The JSON value a successfully encoded cell maps to. -/
def encodeD (c : Cell) : JVal :=
  match jsonEncodeCell c with
  | Except.ok v => v
  | Except.error _ => JVal.jnull

/-- Every cell of the dataframe is JSON-encodable (no timestamp cells). -/
def DF.cellsEncodable (df : DF) : Bool :=
  df.cols.all (fun p => p.2.all (fun c => (jsonEncodeCell c).isOk))

/-- The row records `write_json_file_sunData` produces for a dataframe. -/
def encRecords (df : DF) : List Record :=
  df.toRecords.map (fun r => r.map (fun p => (p.1, encodeD p.2)))

/- ### Concrete example documents (used as witnesses / counterexamples) -/

/-- The example current record of spec §8. -/
def exRecCur : Record :=
  [(("cet"), JVal.jstr ("01-01-2021 10:00")), (("sr"), JVal.jstr ("08:30")),
   (("ss"), JVal.jstr ("16:30")), (("time"), JVal.jstr ("1")),
   (("elev"), JVal.jstr ("10")), (("az"), JVal.jstr ("100")),
   (("temp"), JVal.jstr ("5")), (("gr"), JVal.jstr ("50")),
   (("sd"), JVal.jstr ("0")), (("tc"), JVal.jstr ("20")),
   (("vis"), JVal.jstr ("10000")), (("prec"), JVal.jstr ("0"))]

/-- A complete forecast record. -/
def exRecFc : Record :=
  [(("time"), JVal.jstr ("2")), (("cet"), JVal.jstr ("01-01-2021 11:00")),
   (("elev"), JVal.jstr ("12")), (("az"), JVal.jstr ("110")),
   (("temp"), JVal.jstr ("6")), (("gr"), JVal.jstr ("60")),
   (("sd"), JVal.jstr ("1")), (("tc"), JVal.jstr ("30")),
   (("lc"), JVal.jstr ("10")), (("mc"), JVal.jstr ("15")),
   (("hc"), JVal.jstr ("5")), (("vis"), JVal.jstr ("9000")),
   (("prec"), JVal.jstr ("0"))]

/-- A well-formed example document (spec §8's example, with a non-empty
forecast list). -/
def exDoc : SunDoc :=
  ⟨[[(("plaats"), JVal.jstr ("De Bilt"))]], [exRecCur], [exRecFc]⟩

/-- The extracted `current` table of `exDoc`. -/
def exCur : DF :=
  ⟨[(("cet"), [Cell.ctime ⟨2021, 1, 1, 10, 0⟩]),
    (("sr"), [Cell.ctime ⟨2021, 1, 1, 8, 30⟩]),
    (("ss"), [Cell.ctime ⟨2021, 1, 1, 16, 30⟩]),
    (("time"), [Cell.cnum 1]), (("elev"), [Cell.cnum 10]),
    (("az"), [Cell.cnum 100]), (("temp"), [Cell.cnum 5]),
    (("gr"), [Cell.cnum 50]), (("sd"), [Cell.cnum 0]),
    (("tc"), [Cell.cnum 20]), (("vis"), [Cell.cnum 10000]),
    (("prec"), [Cell.cnum 0])]⟩

/-- The extracted `forecast` table of `exDoc`. -/
def exFc : DF :=
  ⟨[(("time"), [Cell.cnum 2]),
    (("cet"), [Cell.ctime ⟨2021, 1, 1, 11, 0⟩]),
    (("elev"), [Cell.cnum 12]), (("az"), [Cell.cnum 110]),
    (("temp"), [Cell.cnum 6]), (("gr"), [Cell.cnum 60]),
    (("sd"), [Cell.cnum 1]), (("tc"), [Cell.cnum 30]),
    (("lc"), [Cell.cnum 10]), (("mc"), [Cell.cnum 15]),
    (("hc"), [Cell.cnum 5]), (("vis"), [Cell.cnum 9000]),
    (("prec"), [Cell.cnum 0])]⟩

/-- `exRecFc` without its `temp` field. -/
def exRecFcNoTemp : Record :=
  [(("time"), JVal.jstr ("2")), (("cet"), JVal.jstr ("01-01-2021 11:00")),
   (("elev"), JVal.jstr ("12")), (("az"), JVal.jstr ("110")),
   (("gr"), JVal.jstr ("60")),
   (("sd"), JVal.jstr ("1")), (("tc"), JVal.jstr ("30")),
   (("lc"), JVal.jstr ("10")), (("mc"), JVal.jstr ("15")),
   (("hc"), JVal.jstr ("5")), (("vis"), JVal.jstr ("9000")),
   (("prec"), JVal.jstr ("0"))]

/-- A document whose second forecast record is missing the `temp` field
while the first record has it. -/
def exDocMissingTemp : SunDoc :=
  ⟨[[(("plaats"), JVal.jstr ("De Bilt"))]], [exRecCur], [exRecFc, exRecFcNoTemp]⟩

/-- `exRecFc` with its `temp` field replaced by an arbitrary string. -/
def exRecFcBadTemp (s : String) : Record :=
  [(("time"), JVal.jstr ("2")), (("cet"), JVal.jstr ("01-01-2021 11:00")),
   (("elev"), JVal.jstr ("12")), (("az"), JVal.jstr ("110")),
   (("temp"), JVal.jstr s), (("gr"), JVal.jstr ("60")),
   (("sd"), JVal.jstr ("1")), (("tc"), JVal.jstr ("30")),
   (("lc"), JVal.jstr ("10")), (("mc"), JVal.jstr ("15")),
   (("hc"), JVal.jstr ("5")), (("vis"), JVal.jstr ("9000")),
   (("prec"), JVal.jstr ("0"))]

/-- A document whose single forecast record carries a given `temp` value. -/
def exDocBadTemp (s : String) : SunDoc :=
  ⟨[[(("plaats"), JVal.jstr ("De Bilt"))]], [exRecCur], [exRecFcBadTemp s]⟩

/-- A document in which no forecast record has a `temp` field at all. -/
def exDocNoTempCol : SunDoc :=
  ⟨[[(("plaats"), JVal.jstr ("De Bilt"))]], [exRecCur], [exRecFcNoTemp]⟩

/-- A small hourly-forecast document: values keep their native JSON types. -/
def exRecUur : Record :=
  [(("tijd"), JVal.jnum 1609491600), (("temp"), JVal.jnum 5),
   (("winds"), JVal.jstr ("NW"))]

def exUurDoc : UurDoc :=
  ⟨[[(("plaats"), JVal.jstr ("De Bilt"))]], [exRecUur]⟩

/- ### Generic helpers -/

instance {ε α : Type} [DecidableEq ε] [DecidableEq α] : DecidableEq (Except ε α) := fun a b =>
  match a, b with
  | Except.ok x, Except.ok y => decidable_of_iff (x = y) (by simp)
  | Except.error x, Except.error y => decidable_of_iff (x = y) (by simp)
  | Except.ok _, Except.error _ => Decidable.isFalse (by simp)
  | Except.error _, Except.ok _ => Decidable.isFalse (by simp)

@[simp] lemma ok_bind {α β : Type} (a : α) (f : α → Except String β) :
    (Except.ok a >>= f) = f a := rfl

@[simp] lemma error_bind {α β : Type} (e : String) (f : α → Except String β) :
    ((Except.error e : Except String α) >>= f) = Except.error e := rfl

@[simp] lemma pure_eq_ok {α : Type} (a : α) : (pure a : Except String α) = Except.ok a := rfl

/-- Pushing a map under an `Except` bind chain (used to relate the
state-threaded extractor to the plain one). -/
lemma exmap_bind {α β γ : Type} (e : Except String α) (f : α → Except String β)
    (g : β → γ) : (e >>= f).map g = e >>= fun a => (f a).map g := by
  cases e <;> rfl

lemma mapM_map_ok {α β : Type} (rows : List α) (F : α → β)
    (f : β → Except String Cell) (g : α → Cell)
    (h : ∀ r ∈ rows, f (F r) = Except.ok (g r)) :
    (rows.map F).mapM f = Except.ok (rows.map g) := by
  induction rows with
  | nil => rfl
  | cons r rs ih =>
    have h1 : f (F r) = Except.ok (g r) := h r (List.mem_cons_self r rs)
    have h2 := ih (fun x hx => h x (List.mem_cons_of_mem r hx))
    rw [List.map_cons, List.map_cons, List.mapM_cons, h1, ok_bind, h2, ok_bind, pure_eq_ok]

/- ### Lemmas about the dataframe model -/

lemma mem_insertKeys_left {x : String} {acc : List String} (ks : List String)
    (h : x ∈ acc) : x ∈ insertKeys acc ks := by
  induction ks generalizing acc with
  | nil => exact h
  | cons k ks ih =>
    unfold insertKeys
    simp only [List.foldl_cons]
    apply ih
    by_cases hk : k ∈ acc
    · simpa [hk]
    · simp [hk, List.mem_append, h]

lemma mem_insertKeys_right {x : String} {acc : List String} {ks : List String}
    (h : x ∈ ks) : x ∈ insertKeys acc ks := by
  induction ks generalizing acc with
  | nil => cases h
  | cons k ks ih =>
    unfold insertKeys
    simp only [List.foldl_cons]
    rcases List.mem_cons.mp h with h1 | h1
    · subst h1
      apply mem_insertKeys_left
      by_cases hk : x ∈ acc
      · simp [hk]
      · simp [hk]
    · exact ih h1

lemma insertKeys_nodup {acc : List String} (ks : List String) (h : acc.Nodup) :
    (insertKeys acc ks).Nodup := by
  induction ks generalizing acc with
  | nil => exact h
  | cons k ks ih =>
    unfold insertKeys
    simp only [List.foldl_cons]
    apply ih
    by_cases hk : k ∈ acc
    · simpa [hk]
    · simp [hk, List.nodup_append, h]

lemma mem_foldl_insert {x : String} {recs : List Record} {acc : List String}
    (h : x ∈ acc) :
    x ∈ recs.foldl (fun acc r => insertKeys acc (r.map Prod.fst)) acc := by
  induction recs generalizing acc with
  | nil => exact h
  | cons r rs ih => exact ih (mem_insertKeys_left _ h)

lemma mem_dfKeys_aux {r : Record} {k : String} (hk : k ∈ r.map Prod.fst) :
    ∀ {recs : List Record} (acc : List String), r ∈ recs →
      k ∈ recs.foldl (fun acc r => insertKeys acc (r.map Prod.fst)) acc := by
  intro recs
  induction recs with
  | nil => intro acc hr; cases hr
  | cons r0 rs ih =>
    intro acc hr
    simp only [List.foldl_cons]
    rcases List.mem_cons.mp hr with h1 | h1
    · subst h1
      exact mem_foldl_insert (mem_insertKeys_right hk)
    · exact ih _ h1

lemma mem_dfKeys {recs : List Record} {r : Record} {k : String}
    (hr : r ∈ recs) (hk : k ∈ r.map Prod.fst) : k ∈ dfKeys recs :=
  mem_dfKeys_aux hk [] hr

lemma dfKeys_nodup (recs : List Record) : (dfKeys recs).Nodup := by
  unfold dfKeys
  have : ∀ (acc : List String), acc.Nodup →
      (recs.foldl (fun acc r => insertKeys acc (r.map Prod.fst)) acc).Nodup := by
    induction recs with
    | nil => intro acc h; exact h
    | cons r rs ih =>
      intro acc h
      simp only [List.foldl_cons]
      exact ih _ (insertKeys_nodup _ h)
  exact this [] List.nodup_nil

lemma getCol_mapDF {keys : List String} {rows : List Record}
    {F : String → Record → Cell} {k : String} (hnd : keys.Nodup) (hk : k ∈ keys) :
    (mapDF keys rows F).getCol k = Except.ok (rows.map (F k)) := by
  unfold mapDF DF.getCol
  induction keys with
  | nil => cases hk
  | cons k0 ks ih =>
    simp only [List.map_cons, List.find?_cons]
    by_cases h0 : k0 = k
    · subst h0; simp
    · have : (k0 == k) = false := by simp [h0]
      simp only [this]
      exact ih (List.Nodup.of_cons hnd) (by
        rcases List.mem_cons.mp hk with h1 | h1
        · exact absurd h1.symm h0
        · exact h1)

lemma setCol_mapDF (keys : List String) (rows : List Record)
    (F : String → Record → Cell) (k : String) (g : Record → Cell) :
    (mapDF keys rows F).setCol k (rows.map g) =
      mapDF keys rows (updCell k g F) := by
  unfold mapDF DF.setCol updCell
  simp only [List.map_map]
  refine congrArg DF.mk (List.map_congr_left ?_)
  intro k' _
  by_cases h : k' = k
  · subst h; simp
  · simp [Function.comp, h]

/- ### Parser lemmas -/

lemma expectChar_inv {c : Char} {cs r : List Char} (h : expectChar c cs = some r) :
    cs = c :: r := by
  match cs with
  | [] => simp [expectChar] at h
  | c' :: rest =>
    simp only [expectChar] at h
    split_ifs at h with hc
    subst hc
    simpa using congrArg (fun o => o.getD []) h

lemma digit2_inv {cs : List Char} {n : ℕ} {r : List Char} (h : digit2 cs = some (n, r)) :
    ∃ c1 c2, cs = c1 :: c2 :: r ∧ c1.isDigit = true ∧ c2.isDigit = true ∧
      n = (c1.toNat - 48) * 10 + (c2.toNat - 48) := by
  match cs with
  | [] => simp [digit2] at h
  | [_] => simp [digit2] at h
  | c1 :: c2 :: rest =>
    refine ⟨c1, c2, ?_⟩
    simp only [digit2] at h
    split_ifs at h with hd
    · simp only [Option.some.injEq, Prod.mk.injEq] at h
      exact ⟨by rw [h.2], by simp [hd.1], by simp [hd.2], h.1.symm⟩

lemma digit2_eval {c1 c2 : Char} (h1 : c1.isDigit = true) (h2 : c2.isDigit = true)
    (rest : List Char) :
    digit2 (c1 :: c2 :: rest) = some ((c1.toNat - 48) * 10 + (c2.toNat - 48), rest) := by
  simp [digit2, h1, h2]

lemma digit4_inv {cs : List Char} {n : ℕ} {r : List Char} (h : digit4 cs = some (n, r)) :
    ∃ a b r1, digit2 cs = some (a, r1) ∧ digit2 r1 = some (b, r) ∧ n = a * 100 + b := by
  unfold digit4 at h
  split at h
  · exact Option.noConfusion h
  rename_i u1 a r1 heq1
  split at h
  · exact Option.noConfusion h
  rename_i u2 b r2 heq2
  simp only [Option.some.injEq, Prod.mk.injEq] at h
  exact ⟨a, b, r1, heq1, by rw [h.2] at heq2; exact heq2, h.1.symm⟩

lemma parseHM_inv {ts : List Char} {hh mm : ℕ} (h : parseHM ts = some (hh, mm)) :
    ∃ a1 a2 b1 b2 : Char,
      ts = [a1, a2, Char.ofNat 58, b1, b2] ∧
      a1.isDigit = true ∧ a2.isDigit = true ∧ b1.isDigit = true ∧ b2.isDigit = true ∧
      hh = (a1.toNat - 48) * 10 + (a2.toNat - 48) ∧
      mm = (b1.toNat - 48) * 10 + (b2.toNat - 48) ∧
      hh ≤ 23 ∧ mm ≤ 59 := by
  unfold parseHM at h
  split at h
  · exact Option.noConfusion h
  rename_i u1 n1 r1 heq1
  split at h
  · exact Option.noConfusion h
  rename_i u2 r2 heq2
  split at h
  · exact Option.noConfusion h
  rename_i u3 n2 r3 heq3
  split_ifs at h with hv
  simp only [Option.some.injEq, Prod.mk.injEq] at h
  obtain ⟨hn1, hn2⟩ := h
  obtain ⟨a1, a2, hts, ha1, ha2, hv1⟩ := digit2_inv heq1
  have hr1 : r1 = Char.ofNat 58 :: r2 := expectChar_inv heq2
  obtain ⟨b1, b2, hr2, hb1, hb2, hv2⟩ := digit2_inv heq3
  obtain ⟨hnil, h23, h59⟩ := hv
  refine ⟨a1, a2, b1, b2, ?_, ha1, ha2, hb1, hb2, ?_, ?_, ?_, ?_⟩
  · rw [hts, hr1, hr2, hnil]
  · rw [← hn1, hv1]
  · rw [← hn2, hv2]
  · rw [← hn1]; exact h23
  · rw [← hn2]; exact h59

lemma parseDT_inv {cs : List Char} {t : DateTime} (h : parseDT cs = some t) :
    ∃ d1 d2 m1 m2 y1 y2 y3 y4 a1 a2 b1 b2 : Char,
      cs = [d1, d2, Char.ofNat 45, m1, m2, Char.ofNat 45, y1, y2, y3, y4,
            Char.ofNat 32, a1, a2, Char.ofNat 58, b1, b2] ∧
      d1.isDigit = true ∧ d2.isDigit = true ∧ m1.isDigit = true ∧ m2.isDigit = true ∧
      y1.isDigit = true ∧ y2.isDigit = true ∧ y3.isDigit = true ∧ y4.isDigit = true ∧
      a1.isDigit = true ∧ a2.isDigit = true ∧ b1.isDigit = true ∧ b2.isDigit = true ∧
      t = ⟨((y1.toNat - 48) * 10 + (y2.toNat - 48)) * 100 +
             ((y3.toNat - 48) * 10 + (y4.toNat - 48)),
           (m1.toNat - 48) * 10 + (m2.toNat - 48),
           (d1.toNat - 48) * 10 + (d2.toNat - 48),
           (a1.toNat - 48) * 10 + (a2.toNat - 48),
           (b1.toNat - 48) * 10 + (b2.toNat - 48)⟩ ∧
      validDT t = true := by
  unfold parseDT at h
  split at h
  · exact Option.noConfusion h
  rename_i u1 dd r1 heq1
  split at h
  · exact Option.noConfusion h
  rename_i u2 r2 heq2
  split at h
  · exact Option.noConfusion h
  rename_i u3 mm r3 heq3
  split at h
  · exact Option.noConfusion h
  rename_i u4 r4 heq4
  split at h
  · exact Option.noConfusion h
  rename_i u5 yy r5 heq5
  split at h
  · exact Option.noConfusion h
  rename_i u6 r6 heq6
  split at h
  · exact Option.noConfusion h
  rename_i u7 hh r7 heq7
  split at h
  · exact Option.noConfusion h
  rename_i u8 r8 heq8
  split at h
  · exact Option.noConfusion h
  rename_i u9 mi r9 heq9
  split_ifs at h with hv
  simp only [Option.some.injEq] at h
  obtain ⟨hnil, hvd⟩ := hv
  obtain ⟨d1, d2, hcs, hd1, hd2, hdd⟩ := digit2_inv heq1
  have hr1 : r1 = Char.ofNat 45 :: r2 := expectChar_inv heq2
  obtain ⟨m1, m2, hr2, hm1, hm2, hmm⟩ := digit2_inv heq3
  have hr3 : r3 = Char.ofNat 45 :: r4 := expectChar_inv heq4
  obtain ⟨ya, yb, r4a, hya, hyb, hyy⟩ := digit4_inv heq5
  obtain ⟨y1, y2, hr4, hy1, hy2, hyav⟩ := digit2_inv hya
  obtain ⟨y3, y4, hr4a, hy3, hy4, hybv⟩ := digit2_inv hyb
  have hr5 : r5 = Char.ofNat 32 :: r6 := expectChar_inv heq6
  obtain ⟨a1, a2, hr6, ha1, ha2, hhh⟩ := digit2_inv heq7
  have hr7 : r7 = Char.ofNat 58 :: r8 := expectChar_inv heq8
  obtain ⟨b1, b2, hr8, hb1, hb2, hmi⟩ := digit2_inv heq9
  have ht : t = ⟨yy, mm, dd, hh, mi⟩ := h.symm
  refine ⟨d1, d2, m1, m2, y1, y2, y3, y4, a1, a2, b1, b2, ?_,
    hd1, hd2, hm1, hm2, hy1, hy2, hy3, hy4, ha1, ha2, hb1, hb2, ?_, ?_⟩
  · rw [hcs, hr1, hr2, hr3, hr4, hr4a, hr5, hr6, hr7, hr8, hnil]
  · rw [ht, hyy, hyav, hybv, hmm, hdd, hhh, hmi]
  · rw [ht]; exact hvd

lemma validDT_hm {t : DateTime} {hh mm : ℕ} (h : validDT t = true)
    (h23 : hh ≤ 23) (h59 : mm ≤ 59) :
    validDT ⟨t.year, t.month, t.day, hh, mm⟩ = true := by
  simp only [validDT, Bool.and_eq_true, decide_eq_true_eq] at h ⊢
  obtain ⟨⟨⟨⟨⟨a, b⟩, c⟩, d⟩, _⟩, _⟩ := h
  exact ⟨⟨⟨⟨⟨a, b⟩, c⟩, d⟩, h23⟩, h59⟩

/-- The heart of the sunrise/sunset splicing rule: if `cs` parses as a full
timestamp `t` and `ts` parses as a time of day `(hh, mm)`, then the first 10
characters of `cs` followed by a space and `ts` parse as the timestamp with
`t`'s date and `ts`'s time. -/
lemma parseDT_splice {cs ts : List Char} {t : DateTime} {hh mm : ℕ}
    (h1 : parseDT cs = some t) (h2 : parseHM ts = some (hh, mm)) :
    parseDT (cs.take 10 ++ Char.ofNat 32 :: ts) = some ⟨t.year, t.month, t.day, hh, mm⟩ := by
  obtain ⟨d1, d2, m1, m2, y1, y2, y3, y4, a1, a2, b1, b2, hcs, hd1, hd2, hm1, hm2,
    hy1, hy2, hy3, hy4, _, _, _, _, ht, hvd⟩ := parseDT_inv h1
  obtain ⟨p1, p2, q1, q2, hts, hp1, hp2, hq1, hq2, hhv, hmv, h23, h59⟩ := parseHM_inv h2
  subst hcs
  subst hts
  subst ht
  subst hhv
  subst hmv
  have hvd2 := validDT_hm hvd h23 h59
  simp only [List.take, List.cons_append, List.nil_append]
  simp only [parseDT, digit2_eval hd1 hd2, digit2_eval hm1 hm2, digit2_eval hy1 hy2,
    digit2_eval hy3 hy4, digit2_eval hp1 hp2, digit2_eval hq1 hq2, digit4, expectChar,
    if_pos]
  simp only [validDT] at hvd2 ⊢
  simp [hvd2]

/- ### Well-formedness unpacking -/

lemma rawCell_eq_some {r : Record} {k : String} {v : JVal}
    (h : lookupRec r k = some v) : rawCell k r = cellOfJVal v := by
  unfold rawCell
  rw [h]

lemma parseNum_eq_some {s : String} {q : ℚ} (h : parseNum s = some q) :
    parseNumeric s = some (NumResult.num q) := by
  unfold parseNum at h
  rcases hp : parseNumeric s with _ | r
  · rw [hp] at h
    cases h
  · rw [hp] at h
    cases r with
    | num q2 =>
      simp only [Option.some.injEq] at h
      rw [h]
    | nan => simp at h
    | inf b => simp at h

lemma isNumVal_num {r : Record} {k : String} (h : isNumVal (lookupRec r k) = true) :
    toNumericCell (rawCell k r) = Except.ok (numC k r) ∧ ∃ q, numC k r = Cell.cnum q := by
  rcases hl : lookupRec r k with _ | v
  · rw [hl] at h
    exact absurd h (by simp [isNumVal])
  · rw [hl] at h
    have hraw := rawCell_eq_some hl
    cases v with
    | jstr s =>
      rcases hp : parseNum s with _ | q
      · rw [isNumVal] at h
        rw [hp] at h
        exact absurd h (by simp)
      · have hc : toNumericCell (rawCell k r) = Except.ok (Cell.cnum q) := by
          rw [hraw]
          simp [cellOfJVal, toNumericCell, parseNum_eq_some hp]
        refine ⟨?_, q, ?_⟩ <;> rw [numC, hc] <;> rfl
    | jnum q =>
      have hc : toNumericCell (rawCell k r) = Except.ok (Cell.cnum q) := by
        rw [hraw]
        simp [cellOfJVal, toNumericCell]
      refine ⟨?_, q, ?_⟩ <;> rw [numC, hc] <;> rfl
    | jnull => exact absurd h (by simp [isNumVal])
    | jnan => exact absurd h (by simp [isNumVal])
    | jinf b => exact absurd h (by simp [isNumVal])

lemma isDTStr_dt {r : Record} {k : String} (h : isDTStr (lookupRec r k) = true) :
    ∃ s t, lookupRec r k = some (JVal.jstr s) ∧ parseDTs s = some t ∧
      rawCell k r = Cell.cstr s ∧
      toDatetimeCell (rawCell k r) = Except.ok (dtC k r) ∧ dtC k r = Cell.ctime t := by
  rcases hl : lookupRec r k with _ | v
  · rw [hl] at h
    exact absurd h (by simp [isDTStr])
  · rw [hl] at h
    have hraw := rawCell_eq_some hl
    cases v with
    | jstr s =>
      rcases hp : parseDTs s with _ | t
      · rw [isDTStr] at h
        rw [hp] at h
        exact absurd h (by simp)
      · have hc : toDatetimeCell (rawCell k r) = Except.ok (Cell.ctime t) := by
          rw [hraw]
          simp [cellOfJVal, toDatetimeCell, hp]
        exact ⟨s, t, rfl, hp, by rw [hraw]; rfl, by rw [hc, dtC, hc]; rfl,
          by rw [dtC, hc]; rfl⟩
    | jnum q => exact absurd h (by simp [isDTStr])
    | jnull => exact absurd h (by simp [isDTStr])
    | jnan => exact absurd h (by simp [isDTStr])
    | jinf b => exact absurd h (by simp [isDTStr])

lemma isHMStr_hm {r : Record} {k : String} (h : isHMStr (lookupRec r k) = true) :
    ∃ s hh mm, lookupRec r k = some (JVal.jstr s) ∧ parseHMs s = some (hh, mm) ∧
      rawCell k r = Cell.cstr s := by
  rcases hl : lookupRec r k with _ | v
  · rw [hl] at h
    exact absurd h (by simp [isHMStr])
  · rw [hl] at h
    have hraw := rawCell_eq_some hl
    cases v with
    | jstr s =>
      rcases hp : parseHMs s with _ | hm
      · rw [isHMStr] at h
        rw [hp] at h
        exact absurd h (by simp)
      · exact ⟨s, hm.1, hm.2, rfl, by rw [hp], by rw [hraw]; rfl⟩
    | jnum q => exact absurd h (by simp [isHMStr])
    | jnull => exact absurd h (by simp [isHMStr])
    | jnan => exact absurd h (by simp [isHMStr])
    | jinf b => exact absurd h (by simp [isHMStr])

/-- The splicing facts for one record: slicing+concatenation succeeds, the
spliced string parses, and the result combines the `cet` date with the
time-of-day value. -/
lemma sunC_spec {r : Record} {k : String} {cs ts : String} {t : DateTime} {hh mm : ℕ}
    (hcet : lookupRec r ("cet") = some (JVal.jstr cs)) (hpt : parseDTs cs = some t)
    (htk : lookupRec r k = some (JVal.jstr ts)) (hph : parseHMs ts = some (hh, mm)) :
    spliceCell (rawCell ("cet") r) (rawCell k r) = Except.ok (splC k r) ∧
    splC k r = Cell.cstr (String.mk (cs.data.take 10) ++ (" ") ++ ts) ∧
    toDatetimeCell (splC k r) = Except.ok (sunC k r) ∧
    sunC k r = Cell.ctime ⟨t.year, t.month, t.day, hh, mm⟩ := by
  have hrawc : rawCell ("cet") r = Cell.cstr cs := by rw [rawCell_eq_some hcet]; rfl
  have hrawk : rawCell k r = Cell.cstr ts := by rw [rawCell_eq_some htk]; rfl
  have hspl : spliceCell (rawCell ("cet") r) (rawCell k r) =
      Except.ok (Cell.cstr (String.mk (cs.data.take 10) ++ (" ") ++ ts)) := by
    rw [hrawc, hrawk]
    simp [spliceCell, strSlice]
  have hsplC : splC k r = Cell.cstr (String.mk (cs.data.take 10) ++ (" ") ++ ts) := by
    rw [splC, hspl]
    rfl
  have hdata : (String.mk (cs.data.take 10) ++ (" ") ++ ts).data =
      cs.data.take 10 ++ Char.ofNat 32 :: ts.data := by
    rw [String.data_append, String.data_append]
    simp
  have hparse : parseDTs (String.mk (cs.data.take 10) ++ (" ") ++ ts) =
      some ⟨t.year, t.month, t.day, hh, mm⟩ := by
    unfold parseDTs
    rw [hdata]
    exact parseDT_splice hpt hph
  have hdt : toDatetimeCell (splC k r) =
      Except.ok (Cell.ctime ⟨t.year, t.month, t.day, hh, mm⟩) := by
    rw [hsplC]
    simp [toDatetimeCell, hparse]
  exact ⟨by rw [hspl, hsplC], hsplC, by rw [hdt, sunC, hdt]; rfl, by rw [sunC, hdt]; rfl⟩

lemma splice_ok {r : Record} {k : String}
    (hc : isDTStr (lookupRec r ("cet")) = true) (hk : isHMStr (lookupRec r k) = true) :
    spliceCell (rawCell ("cet") r) (rawCell k r) = Except.ok (splC k r) ∧
    toDatetimeCell (splC k r) = Except.ok (sunC k r) := by
  obtain ⟨cs, t, hlc, hpt, _, _, _⟩ := isDTStr_dt hc
  obtain ⟨ts, hh, mm, hlk, hph, _⟩ := isHMStr_hm hk
  obtain ⟨h1, _, h2, _⟩ := sunC_spec hlc hpt hlk hph
  exact ⟨h1, h2⟩

lemma isDTStr_isSome {x : Option JVal} (h : isDTStr x = true) : x.isSome = true := by
  cases x with
  | none => simp [isDTStr] at h
  | some v => rfl

lemma isHMStr_isSome {x : Option JVal} (h : isHMStr x = true) : x.isSome = true := by
  cases x with
  | none => simp [isHMStr] at h
  | some v => rfl

lemma isNumVal_isSome {x : Option JVal} (h : isNumVal x = true) : x.isSome = true := by
  cases x with
  | none => simp [isNumVal] at h
  | some v => rfl

lemma lookup_isSome_mem {r : Record} {k : String} (h : (lookupRec r k).isSome = true) :
    k ∈ r.map Prod.fst := by
  unfold lookupRec at h
  rcases hf : List.find? (fun p => p.1 == k) r with _ | p
  · rw [hf] at h
    simp at h
  · have hp := List.find?_some hf
    have hm := List.mem_of_find?_eq_some hf
    have hk : p.1 = k := by simpa using hp
    exact hk ▸ List.mem_map_of_mem Prod.fst hm

/- ### Column-operation step lemmas -/

lemma numCol_mapDF {keys : List String} {rows : List Record}
    {F : String → Record → Cell} {k : String} {g : Record → Cell}
    (hnd : keys.Nodup) (hk : k ∈ keys)
    (h : ∀ r ∈ rows, toNumericCell (F k r) = Except.ok (g r)) :
    (mapDF keys rows F).numCol k =
      Except.ok (mapDF keys rows (updCell k g F)) := by
  unfold DF.numCol
  rw [getCol_mapDF hnd hk, ok_bind, mapM_map_ok rows (F k) toNumericCell g h, ok_bind,
    pure_eq_ok, setCol_mapDF]

lemma dtCol_mapDF {keys : List String} {rows : List Record}
    {F : String → Record → Cell} {k : String} {g : Record → Cell}
    (hnd : keys.Nodup) (hk : k ∈ keys)
    (h : ∀ r ∈ rows, toDatetimeCell (F k r) = Except.ok (g r)) :
    (mapDF keys rows F).dtCol k =
      Except.ok (mapDF keys rows (updCell k g F)) := by
  unfold DF.dtCol
  rw [getCol_mapDF hnd hk, ok_bind, mapM_map_ok rows (F k) toDatetimeCell g h, ok_bind,
    pure_eq_ok, setCol_mapDF]

/- ### Destructuring of the record well-formedness conjunctions -/

lemma currentRecOK_parts {r : Record} (h : currentRecOK r = true) :
    isDTStr (lookupRec r ("cet")) = true ∧ isHMStr (lookupRec r ("sr")) = true ∧
    isHMStr (lookupRec r ("ss")) = true ∧ isNumVal (lookupRec r ("time")) = true ∧
    isNumVal (lookupRec r ("elev")) = true ∧ isNumVal (lookupRec r ("az")) = true ∧
    isNumVal (lookupRec r ("temp")) = true ∧ isNumVal (lookupRec r ("gr")) = true ∧
    isNumVal (lookupRec r ("sd")) = true ∧ isNumVal (lookupRec r ("tc")) = true ∧
    isNumVal (lookupRec r ("vis")) = true ∧ isNumVal (lookupRec r ("prec")) = true := by
  simp only [currentRecOK, Bool.and_eq_true] at h
  tauto

lemma forecastRecOK_parts {r : Record} (h : forecastRecOK r = true) :
    isDTStr (lookupRec r ("cet")) = true ∧ isNumVal (lookupRec r ("time")) = true ∧
    isNumVal (lookupRec r ("elev")) = true ∧ isNumVal (lookupRec r ("az")) = true ∧
    isNumVal (lookupRec r ("temp")) = true ∧ isNumVal (lookupRec r ("gr")) = true ∧
    isNumVal (lookupRec r ("sd")) = true ∧ isNumVal (lookupRec r ("tc")) = true ∧
    isNumVal (lookupRec r ("lc")) = true ∧ isNumVal (lookupRec r ("mc")) = true ∧
    isNumVal (lookupRec r ("hc")) = true ∧ isNumVal (lookupRec r ("vis")) = true ∧
    isNumVal (lookupRec r ("prec")) = true := by
  simp only [forecastRecOK, Bool.and_eq_true] at h
  tauto


/- ### The current-table pipeline on a well-formed record list -/

lemma processCurrent_ok {rows : List Record} (hne : rows ≠ [])
    (hall : ∀ r ∈ rows, currentRecOK r = true) :
    processCurrent (DataFrame_from_dict rows) =
      Except.ok (mapDF (dfKeys rows) rows curCellF) := by
  obtain ⟨r0, hr0⟩ : ∃ r0, r0 ∈ rows := by
    cases rows with
    | nil => exact absurd rfl hne
    | cons a l => exact ⟨a, List.mem_cons_self a l⟩
  have hp0 := currentRecOK_parts (hall r0 hr0)
  have hnd := dfKeys_nodup rows
  have mcet : ("cet" : String) ∈ dfKeys rows :=
    mem_dfKeys hr0 (lookup_isSome_mem (isDTStr_isSome hp0.1))
  have msr : ("sr" : String) ∈ dfKeys rows :=
    mem_dfKeys hr0 (lookup_isSome_mem (isHMStr_isSome hp0.2.1))
  have mss : ("ss" : String) ∈ dfKeys rows :=
    mem_dfKeys hr0 (lookup_isSome_mem (isHMStr_isSome hp0.2.2.1))
  have mtime : ("time" : String) ∈ dfKeys rows :=
    mem_dfKeys hr0 (lookup_isSome_mem (isNumVal_isSome hp0.2.2.2.1))
  have melev : ("elev" : String) ∈ dfKeys rows :=
    mem_dfKeys hr0 (lookup_isSome_mem (isNumVal_isSome hp0.2.2.2.2.1))
  have maz : ("az" : String) ∈ dfKeys rows :=
    mem_dfKeys hr0 (lookup_isSome_mem (isNumVal_isSome hp0.2.2.2.2.2.1))
  have mtemp : ("temp" : String) ∈ dfKeys rows :=
    mem_dfKeys hr0 (lookup_isSome_mem (isNumVal_isSome hp0.2.2.2.2.2.2.1))
  have mgr : ("gr" : String) ∈ dfKeys rows :=
    mem_dfKeys hr0 (lookup_isSome_mem (isNumVal_isSome hp0.2.2.2.2.2.2.2.1))
  have msd : ("sd" : String) ∈ dfKeys rows :=
    mem_dfKeys hr0 (lookup_isSome_mem (isNumVal_isSome hp0.2.2.2.2.2.2.2.2.1))
  have mtc : ("tc" : String) ∈ dfKeys rows :=
    mem_dfKeys hr0 (lookup_isSome_mem (isNumVal_isSome hp0.2.2.2.2.2.2.2.2.2.1))
  have mvis : ("vis" : String) ∈ dfKeys rows :=
    mem_dfKeys hr0 (lookup_isSome_mem (isNumVal_isSome hp0.2.2.2.2.2.2.2.2.2.2.1))
  have mprec : ("prec" : String) ∈ dfKeys rows :=
    mem_dfKeys hr0 (lookup_isSome_mem (isNumVal_isSome hp0.2.2.2.2.2.2.2.2.2.2.2))
  have psr : ∀ r ∈ rows, spliceCell (rawCell ("cet") r) (rawCell ("sr") r) =
      Except.ok (splC ("sr") r) :=
    fun r hr => (splice_ok (currentRecOK_parts (hall r hr)).1
      (currentRecOK_parts (hall r hr)).2.1).1
  have psr2 : ∀ r ∈ rows, toDatetimeCell (splC ("sr") r) = Except.ok (sunC ("sr") r) :=
    fun r hr => (splice_ok (currentRecOK_parts (hall r hr)).1
      (currentRecOK_parts (hall r hr)).2.1).2
  have pss : ∀ r ∈ rows, spliceCell (rawCell ("cet") r) (rawCell ("ss") r) =
      Except.ok (splC ("ss") r) :=
    fun r hr => (splice_ok (currentRecOK_parts (hall r hr)).1
      (currentRecOK_parts (hall r hr)).2.2.1).1
  have pss2 : ∀ r ∈ rows, toDatetimeCell (splC ("ss") r) = Except.ok (sunC ("ss") r) :=
    fun r hr => (splice_ok (currentRecOK_parts (hall r hr)).1
      (currentRecOK_parts (hall r hr)).2.2.1).2
  have pcet : ∀ r ∈ rows, toDatetimeCell (rawCell ("cet") r) = Except.ok (dtC ("cet") r) :=
    fun r hr => by
      obtain ⟨s, t, _, _, _, h4, _⟩ := isDTStr_dt (currentRecOK_parts (hall r hr)).1
      exact h4
  have ptime : ∀ r ∈ rows, toNumericCell (rawCell ("time") r) = Except.ok (numC ("time") r) :=
    fun r hr => (isNumVal_num (currentRecOK_parts (hall r hr)).2.2.2.1).1
  have pelev : ∀ r ∈ rows, toNumericCell (rawCell ("elev") r) = Except.ok (numC ("elev") r) :=
    fun r hr => (isNumVal_num (currentRecOK_parts (hall r hr)).2.2.2.2.1).1
  have paz : ∀ r ∈ rows, toNumericCell (rawCell ("az") r) = Except.ok (numC ("az") r) :=
    fun r hr => (isNumVal_num (currentRecOK_parts (hall r hr)).2.2.2.2.2.1).1
  have ptemp : ∀ r ∈ rows, toNumericCell (rawCell ("temp") r) = Except.ok (numC ("temp") r) :=
    fun r hr => (isNumVal_num (currentRecOK_parts (hall r hr)).2.2.2.2.2.2.1).1
  have pgr : ∀ r ∈ rows, toNumericCell (rawCell ("gr") r) = Except.ok (numC ("gr") r) :=
    fun r hr => (isNumVal_num (currentRecOK_parts (hall r hr)).2.2.2.2.2.2.2.1).1
  have psd : ∀ r ∈ rows, toNumericCell (rawCell ("sd") r) = Except.ok (numC ("sd") r) :=
    fun r hr => (isNumVal_num (currentRecOK_parts (hall r hr)).2.2.2.2.2.2.2.2.1).1
  have ptc : ∀ r ∈ rows, toNumericCell (rawCell ("tc") r) = Except.ok (numC ("tc") r) :=
    fun r hr => (isNumVal_num (currentRecOK_parts (hall r hr)).2.2.2.2.2.2.2.2.2.1).1
  have pvis : ∀ r ∈ rows, toNumericCell (rawCell ("vis") r) = Except.ok (numC ("vis") r) :=
    fun r hr => (isNumVal_num (currentRecOK_parts (hall r hr)).2.2.2.2.2.2.2.2.2.2.1).1
  have pprec : ∀ r ∈ rows, toNumericCell (rawCell ("prec") r) = Except.ok (numC ("prec") r) :=
    fun r hr => (isNumVal_num (currentRecOK_parts (hall r hr)).2.2.2.2.2.2.2.2.2.2.2).1
  unfold processCurrent DataFrame_from_dict
  rw [@getCol_mapDF (dfKeys rows) rows rawCell ("cet") hnd mcet]
  simp only [ok_bind]
  rw [@getCol_mapDF (dfKeys rows) rows rawCell ("sr") hnd msr]
  simp only [ok_bind]
  rw [List.zip_map' (rawCell ("cet")) (rawCell ("sr")) rows]
  rw [mapM_map_ok rows (fun r => (rawCell ("cet") r, rawCell ("sr") r))
    (fun p => spliceCell p.1 p.2) (splC ("sr")) (fun r hr => psr r hr)]
  simp only [ok_bind]
  rw [setCol_mapDF (dfKeys rows) rows rawCell ("sr") (splC ("sr"))]
  rw [@dtCol_mapDF (dfKeys rows) rows (updCell ("sr") (splC ("sr")) rawCell) ("sr") (sunC ("sr")) hnd msr
    (fun r hr => psr2 r hr)]
  simp only [ok_bind]
  rw [@getCol_mapDF (dfKeys rows) rows (updCell ("sr") (sunC ("sr")) (updCell ("sr") (splC ("sr")) rawCell)) ("cet") hnd mcet]
  simp only [ok_bind]
  rw [@getCol_mapDF (dfKeys rows) rows (updCell ("sr") (sunC ("sr")) (updCell ("sr") (splC ("sr")) rawCell)) ("ss") hnd mss]
  simp only [ok_bind]
  rw [List.zip_map' ((updCell ("sr") (sunC ("sr")) (updCell ("sr") (splC ("sr")) rawCell)) ("cet")) ((updCell ("sr") (sunC ("sr")) (updCell ("sr") (splC ("sr")) rawCell)) ("ss")) rows]
  rw [mapM_map_ok rows (fun r => ((updCell ("sr") (sunC ("sr")) (updCell ("sr") (splC ("sr")) rawCell)) ("cet") r, (updCell ("sr") (sunC ("sr")) (updCell ("sr") (splC ("sr")) rawCell)) ("ss") r))
    (fun p => spliceCell p.1 p.2) (splC ("ss")) (fun r hr => pss r hr)]
  simp only [ok_bind]
  rw [setCol_mapDF (dfKeys rows) rows (updCell ("sr") (sunC ("sr")) (updCell ("sr") (splC ("sr")) rawCell)) ("ss") (splC ("ss"))]
  rw [@dtCol_mapDF (dfKeys rows) rows (updCell ("ss") (splC ("ss")) (updCell ("sr") (sunC ("sr")) (updCell ("sr") (splC ("sr")) rawCell))) ("ss") (sunC ("ss")) hnd mss
    (fun r hr => pss2 r hr)]
  simp only [ok_bind]
  rw [@numCol_mapDF (dfKeys rows) rows (updCell ("ss") (sunC ("ss")) (updCell ("ss") (splC ("ss")) (updCell ("sr") (sunC ("sr")) (updCell ("sr") (splC ("sr")) rawCell)))) ("time") (numC ("time")) hnd mtime
    (fun r hr => ptime r hr)]
  simp only [ok_bind]
  rw [@dtCol_mapDF (dfKeys rows) rows (updCell ("time") (numC ("time")) (updCell ("ss") (sunC ("ss")) (updCell ("ss") (splC ("ss")) (updCell ("sr") (sunC ("sr")) (updCell ("sr") (splC ("sr")) rawCell))))) ("cet") (dtC ("cet")) hnd mcet
    (fun r hr => pcet r hr)]
  simp only [ok_bind]
  rw [@numCol_mapDF (dfKeys rows) rows (updCell ("cet") (dtC ("cet")) (updCell ("time") (numC ("time")) (updCell ("ss") (sunC ("ss")) (updCell ("ss") (splC ("ss")) (updCell ("sr") (sunC ("sr")) (updCell ("sr") (splC ("sr")) rawCell)))))) ("elev") (numC ("elev")) hnd melev
    (fun r hr => pelev r hr)]
  simp only [ok_bind]
  rw [@numCol_mapDF (dfKeys rows) rows (updCell ("elev") (numC ("elev")) (updCell ("cet") (dtC ("cet")) (updCell ("time") (numC ("time")) (updCell ("ss") (sunC ("ss")) (updCell ("ss") (splC ("ss")) (updCell ("sr") (sunC ("sr")) (updCell ("sr") (splC ("sr")) rawCell))))))) ("az") (numC ("az")) hnd maz
    (fun r hr => paz r hr)]
  simp only [ok_bind]
  rw [@numCol_mapDF (dfKeys rows) rows (updCell ("az") (numC ("az")) (updCell ("elev") (numC ("elev")) (updCell ("cet") (dtC ("cet")) (updCell ("time") (numC ("time")) (updCell ("ss") (sunC ("ss")) (updCell ("ss") (splC ("ss")) (updCell ("sr") (sunC ("sr")) (updCell ("sr") (splC ("sr")) rawCell)))))))) ("temp") (numC ("temp")) hnd mtemp
    (fun r hr => ptemp r hr)]
  simp only [ok_bind]
  rw [@numCol_mapDF (dfKeys rows) rows (updCell ("temp") (numC ("temp")) (updCell ("az") (numC ("az")) (updCell ("elev") (numC ("elev")) (updCell ("cet") (dtC ("cet")) (updCell ("time") (numC ("time")) (updCell ("ss") (sunC ("ss")) (updCell ("ss") (splC ("ss")) (updCell ("sr") (sunC ("sr")) (updCell ("sr") (splC ("sr")) rawCell))))))))) ("gr") (numC ("gr")) hnd mgr
    (fun r hr => pgr r hr)]
  simp only [ok_bind]
  rw [@numCol_mapDF (dfKeys rows) rows (updCell ("gr") (numC ("gr")) (updCell ("temp") (numC ("temp")) (updCell ("az") (numC ("az")) (updCell ("elev") (numC ("elev")) (updCell ("cet") (dtC ("cet")) (updCell ("time") (numC ("time")) (updCell ("ss") (sunC ("ss")) (updCell ("ss") (splC ("ss")) (updCell ("sr") (sunC ("sr")) (updCell ("sr") (splC ("sr")) rawCell)))))))))) ("sd") (numC ("sd")) hnd msd
    (fun r hr => psd r hr)]
  simp only [ok_bind]
  rw [@numCol_mapDF (dfKeys rows) rows (updCell ("sd") (numC ("sd")) (updCell ("gr") (numC ("gr")) (updCell ("temp") (numC ("temp")) (updCell ("az") (numC ("az")) (updCell ("elev") (numC ("elev")) (updCell ("cet") (dtC ("cet")) (updCell ("time") (numC ("time")) (updCell ("ss") (sunC ("ss")) (updCell ("ss") (splC ("ss")) (updCell ("sr") (sunC ("sr")) (updCell ("sr") (splC ("sr")) rawCell))))))))))) ("tc") (numC ("tc")) hnd mtc
    (fun r hr => ptc r hr)]
  simp only [ok_bind]
  rw [@numCol_mapDF (dfKeys rows) rows (updCell ("tc") (numC ("tc")) (updCell ("sd") (numC ("sd")) (updCell ("gr") (numC ("gr")) (updCell ("temp") (numC ("temp")) (updCell ("az") (numC ("az")) (updCell ("elev") (numC ("elev")) (updCell ("cet") (dtC ("cet")) (updCell ("time") (numC ("time")) (updCell ("ss") (sunC ("ss")) (updCell ("ss") (splC ("ss")) (updCell ("sr") (sunC ("sr")) (updCell ("sr") (splC ("sr")) rawCell)))))))))))) ("vis") (numC ("vis")) hnd mvis
    (fun r hr => pvis r hr)]
  simp only [ok_bind]
  rw [@numCol_mapDF (dfKeys rows) rows (updCell ("vis") (numC ("vis")) (updCell ("tc") (numC ("tc")) (updCell ("sd") (numC ("sd")) (updCell ("gr") (numC ("gr")) (updCell ("temp") (numC ("temp")) (updCell ("az") (numC ("az")) (updCell ("elev") (numC ("elev")) (updCell ("cet") (dtC ("cet")) (updCell ("time") (numC ("time")) (updCell ("ss") (sunC ("ss")) (updCell ("ss") (splC ("ss")) (updCell ("sr") (sunC ("sr")) (updCell ("sr") (splC ("sr")) rawCell))))))))))))) ("prec") (numC ("prec")) hnd mprec
    (fun r hr => pprec r hr)]
  simp only [ok_bind]
  rfl

/- ### The forecast-table pipeline on a well-formed record list -/

lemma processForecast_ok {rows : List Record} (hne : rows ≠ [])
    (hall : ∀ r ∈ rows, forecastRecOK r = true) :
    processForecast (DataFrame_from_dict rows) =
      Except.ok (mapDF (dfKeys rows) rows fcCellF) := by
  obtain ⟨r0, hr0⟩ : ∃ r0, r0 ∈ rows := by
    cases rows with
    | nil => exact absurd rfl hne
    | cons a l => exact ⟨a, List.mem_cons_self a l⟩
  have hp0 := forecastRecOK_parts (hall r0 hr0)
  have hnd := dfKeys_nodup rows
  have mcet : ("cet" : String) ∈ dfKeys rows :=
    mem_dfKeys hr0 (lookup_isSome_mem (isDTStr_isSome hp0.1))
  have mtime : ("time" : String) ∈ dfKeys rows :=
    mem_dfKeys hr0 (lookup_isSome_mem (isNumVal_isSome hp0.2.1))
  have melev : ("elev" : String) ∈ dfKeys rows :=
    mem_dfKeys hr0 (lookup_isSome_mem (isNumVal_isSome hp0.2.2.1))
  have maz : ("az" : String) ∈ dfKeys rows :=
    mem_dfKeys hr0 (lookup_isSome_mem (isNumVal_isSome hp0.2.2.2.1))
  have mtemp : ("temp" : String) ∈ dfKeys rows :=
    mem_dfKeys hr0 (lookup_isSome_mem (isNumVal_isSome hp0.2.2.2.2.1))
  have mgr : ("gr" : String) ∈ dfKeys rows :=
    mem_dfKeys hr0 (lookup_isSome_mem (isNumVal_isSome hp0.2.2.2.2.2.1))
  have msd : ("sd" : String) ∈ dfKeys rows :=
    mem_dfKeys hr0 (lookup_isSome_mem (isNumVal_isSome hp0.2.2.2.2.2.2.1))
  have mtc : ("tc" : String) ∈ dfKeys rows :=
    mem_dfKeys hr0 (lookup_isSome_mem (isNumVal_isSome hp0.2.2.2.2.2.2.2.1))
  have mlc : ("lc" : String) ∈ dfKeys rows :=
    mem_dfKeys hr0 (lookup_isSome_mem (isNumVal_isSome hp0.2.2.2.2.2.2.2.2.1))
  have mmc : ("mc" : String) ∈ dfKeys rows :=
    mem_dfKeys hr0 (lookup_isSome_mem (isNumVal_isSome hp0.2.2.2.2.2.2.2.2.2.1))
  have mhc : ("hc" : String) ∈ dfKeys rows :=
    mem_dfKeys hr0 (lookup_isSome_mem (isNumVal_isSome hp0.2.2.2.2.2.2.2.2.2.2.1))
  have mvis : ("vis" : String) ∈ dfKeys rows :=
    mem_dfKeys hr0 (lookup_isSome_mem (isNumVal_isSome hp0.2.2.2.2.2.2.2.2.2.2.2.1))
  have mprec : ("prec" : String) ∈ dfKeys rows :=
    mem_dfKeys hr0 (lookup_isSome_mem (isNumVal_isSome hp0.2.2.2.2.2.2.2.2.2.2.2.2))
  have pcet : ∀ r ∈ rows, toDatetimeCell (rawCell ("cet") r) = Except.ok (dtC ("cet") r) :=
    fun r hr => by
      obtain ⟨s, t, _, _, _, h4, _⟩ := isDTStr_dt (forecastRecOK_parts (hall r hr)).1
      exact h4
  have ptime : ∀ r ∈ rows, toNumericCell (rawCell ("time") r) = Except.ok (numC ("time") r) :=
    fun r hr => (isNumVal_num (forecastRecOK_parts (hall r hr)).2.1).1
  have pelev : ∀ r ∈ rows, toNumericCell (rawCell ("elev") r) = Except.ok (numC ("elev") r) :=
    fun r hr => (isNumVal_num (forecastRecOK_parts (hall r hr)).2.2.1).1
  have paz : ∀ r ∈ rows, toNumericCell (rawCell ("az") r) = Except.ok (numC ("az") r) :=
    fun r hr => (isNumVal_num (forecastRecOK_parts (hall r hr)).2.2.2.1).1
  have ptemp : ∀ r ∈ rows, toNumericCell (rawCell ("temp") r) = Except.ok (numC ("temp") r) :=
    fun r hr => (isNumVal_num (forecastRecOK_parts (hall r hr)).2.2.2.2.1).1
  have pgr : ∀ r ∈ rows, toNumericCell (rawCell ("gr") r) = Except.ok (numC ("gr") r) :=
    fun r hr => (isNumVal_num (forecastRecOK_parts (hall r hr)).2.2.2.2.2.1).1
  have psd : ∀ r ∈ rows, toNumericCell (rawCell ("sd") r) = Except.ok (numC ("sd") r) :=
    fun r hr => (isNumVal_num (forecastRecOK_parts (hall r hr)).2.2.2.2.2.2.1).1
  have ptc : ∀ r ∈ rows, toNumericCell (rawCell ("tc") r) = Except.ok (numC ("tc") r) :=
    fun r hr => (isNumVal_num (forecastRecOK_parts (hall r hr)).2.2.2.2.2.2.2.1).1
  have plc : ∀ r ∈ rows, toNumericCell (rawCell ("lc") r) = Except.ok (numC ("lc") r) :=
    fun r hr => (isNumVal_num (forecastRecOK_parts (hall r hr)).2.2.2.2.2.2.2.2.1).1
  have pmc : ∀ r ∈ rows, toNumericCell (rawCell ("mc") r) = Except.ok (numC ("mc") r) :=
    fun r hr => (isNumVal_num (forecastRecOK_parts (hall r hr)).2.2.2.2.2.2.2.2.2.1).1
  have phc : ∀ r ∈ rows, toNumericCell (rawCell ("hc") r) = Except.ok (numC ("hc") r) :=
    fun r hr => (isNumVal_num (forecastRecOK_parts (hall r hr)).2.2.2.2.2.2.2.2.2.2.1).1
  have pvis : ∀ r ∈ rows, toNumericCell (rawCell ("vis") r) = Except.ok (numC ("vis") r) :=
    fun r hr => (isNumVal_num (forecastRecOK_parts (hall r hr)).2.2.2.2.2.2.2.2.2.2.2.1).1
  have pprec : ∀ r ∈ rows, toNumericCell (rawCell ("prec") r) = Except.ok (numC ("prec") r) :=
    fun r hr => (isNumVal_num (forecastRecOK_parts (hall r hr)).2.2.2.2.2.2.2.2.2.2.2.2).1
  unfold processForecast DataFrame_from_dict
  rw [@numCol_mapDF (dfKeys rows) rows rawCell ("time") (numC ("time")) hnd mtime
    (fun r hr => ptime r hr)]
  simp only [ok_bind]
  rw [@dtCol_mapDF (dfKeys rows) rows (updCell ("time") (numC ("time")) rawCell) ("cet") (dtC ("cet")) hnd mcet
    (fun r hr => pcet r hr)]
  simp only [ok_bind]
  rw [@numCol_mapDF (dfKeys rows) rows (updCell ("cet") (dtC ("cet")) (updCell ("time") (numC ("time")) rawCell)) ("elev") (numC ("elev")) hnd melev
    (fun r hr => pelev r hr)]
  simp only [ok_bind]
  rw [@numCol_mapDF (dfKeys rows) rows (updCell ("elev") (numC ("elev")) (updCell ("cet") (dtC ("cet")) (updCell ("time") (numC ("time")) rawCell))) ("az") (numC ("az")) hnd maz
    (fun r hr => paz r hr)]
  simp only [ok_bind]
  rw [@numCol_mapDF (dfKeys rows) rows (updCell ("az") (numC ("az")) (updCell ("elev") (numC ("elev")) (updCell ("cet") (dtC ("cet")) (updCell ("time") (numC ("time")) rawCell)))) ("temp") (numC ("temp")) hnd mtemp
    (fun r hr => ptemp r hr)]
  simp only [ok_bind]
  rw [@numCol_mapDF (dfKeys rows) rows (updCell ("temp") (numC ("temp")) (updCell ("az") (numC ("az")) (updCell ("elev") (numC ("elev")) (updCell ("cet") (dtC ("cet")) (updCell ("time") (numC ("time")) rawCell))))) ("gr") (numC ("gr")) hnd mgr
    (fun r hr => pgr r hr)]
  simp only [ok_bind]
  rw [@numCol_mapDF (dfKeys rows) rows (updCell ("gr") (numC ("gr")) (updCell ("temp") (numC ("temp")) (updCell ("az") (numC ("az")) (updCell ("elev") (numC ("elev")) (updCell ("cet") (dtC ("cet")) (updCell ("time") (numC ("time")) rawCell)))))) ("sd") (numC ("sd")) hnd msd
    (fun r hr => psd r hr)]
  simp only [ok_bind]
  rw [@numCol_mapDF (dfKeys rows) rows (updCell ("sd") (numC ("sd")) (updCell ("gr") (numC ("gr")) (updCell ("temp") (numC ("temp")) (updCell ("az") (numC ("az")) (updCell ("elev") (numC ("elev")) (updCell ("cet") (dtC ("cet")) (updCell ("time") (numC ("time")) rawCell))))))) ("tc") (numC ("tc")) hnd mtc
    (fun r hr => ptc r hr)]
  simp only [ok_bind]
  rw [@numCol_mapDF (dfKeys rows) rows (updCell ("tc") (numC ("tc")) (updCell ("sd") (numC ("sd")) (updCell ("gr") (numC ("gr")) (updCell ("temp") (numC ("temp")) (updCell ("az") (numC ("az")) (updCell ("elev") (numC ("elev")) (updCell ("cet") (dtC ("cet")) (updCell ("time") (numC ("time")) rawCell)))))))) ("lc") (numC ("lc")) hnd mlc
    (fun r hr => plc r hr)]
  simp only [ok_bind]
  rw [@numCol_mapDF (dfKeys rows) rows (updCell ("lc") (numC ("lc")) (updCell ("tc") (numC ("tc")) (updCell ("sd") (numC ("sd")) (updCell ("gr") (numC ("gr")) (updCell ("temp") (numC ("temp")) (updCell ("az") (numC ("az")) (updCell ("elev") (numC ("elev")) (updCell ("cet") (dtC ("cet")) (updCell ("time") (numC ("time")) rawCell))))))))) ("mc") (numC ("mc")) hnd mmc
    (fun r hr => pmc r hr)]
  simp only [ok_bind]
  rw [@numCol_mapDF (dfKeys rows) rows (updCell ("mc") (numC ("mc")) (updCell ("lc") (numC ("lc")) (updCell ("tc") (numC ("tc")) (updCell ("sd") (numC ("sd")) (updCell ("gr") (numC ("gr")) (updCell ("temp") (numC ("temp")) (updCell ("az") (numC ("az")) (updCell ("elev") (numC ("elev")) (updCell ("cet") (dtC ("cet")) (updCell ("time") (numC ("time")) rawCell)))))))))) ("hc") (numC ("hc")) hnd mhc
    (fun r hr => phc r hr)]
  simp only [ok_bind]
  rw [@numCol_mapDF (dfKeys rows) rows (updCell ("hc") (numC ("hc")) (updCell ("mc") (numC ("mc")) (updCell ("lc") (numC ("lc")) (updCell ("tc") (numC ("tc")) (updCell ("sd") (numC ("sd")) (updCell ("gr") (numC ("gr")) (updCell ("temp") (numC ("temp")) (updCell ("az") (numC ("az")) (updCell ("elev") (numC ("elev")) (updCell ("cet") (dtC ("cet")) (updCell ("time") (numC ("time")) rawCell))))))))))) ("vis") (numC ("vis")) hnd mvis
    (fun r hr => pvis r hr)]
  simp only [ok_bind]
  rw [@numCol_mapDF (dfKeys rows) rows (updCell ("vis") (numC ("vis")) (updCell ("hc") (numC ("hc")) (updCell ("mc") (numC ("mc")) (updCell ("lc") (numC ("lc")) (updCell ("tc") (numC ("tc")) (updCell ("sd") (numC ("sd")) (updCell ("gr") (numC ("gr")) (updCell ("temp") (numC ("temp")) (updCell ("az") (numC ("az")) (updCell ("elev") (numC ("elev")) (updCell ("cet") (dtC ("cet")) (updCell ("time") (numC ("time")) rawCell)))))))))))) ("prec") (numC ("prec")) hnd mprec
    (fun r hr => pprec r hr)]
  simp only [ok_bind]
  rfl

/- ### The full extractor on a well-formed document -/

lemma getCol_from_dict {recs : List Record} {k : String} (hk : k ∈ dfKeys recs) :
    (DataFrame_from_dict recs).getCol k = Except.ok (recs.map (rawCell k)) := by
  unfold DataFrame_from_dict
  exact getCol_mapDF (dfKeys_nodup recs) hk

lemma sunDocOK_parts {doc : SunDoc} (h : sunDocOK doc = true) :
    (∃ r0 rest, doc.plaatsnaam = r0 :: rest ∧ (lookupRec r0 ("plaats")).isSome = true) ∧
    doc.current ≠ [] ∧ (∀ r ∈ doc.current, currentRecOK r = true) ∧
    doc.forecast ≠ [] ∧ (∀ r ∈ doc.forecast, forecastRecOK r = true) := by
  simp only [sunDocOK, Bool.and_eq_true] at h
  have hm : (match doc.plaatsnaam with
    | r :: _ => recKeysNodup r && (lookupRec r ("plaats")).isSome
    | [] => false) = true := by tauto
  have hce : (!doc.current.isEmpty) = true := by tauto
  have hca : doc.current.all currentRecOK = true := by tauto
  have hfe : (!doc.forecast.isEmpty) = true := by tauto
  have hfa : doc.forecast.all forecastRecOK = true := by tauto
  refine ⟨?_, ?_, ?_, ?_, ?_⟩
  · rcases hpn : doc.plaatsnaam with _ | ⟨r0, rest⟩
    · rw [hpn] at hm
      exact absurd hm (by simp)
    · rw [hpn] at hm
      simp only [Bool.and_eq_true] at hm
      exact ⟨r0, rest, rfl, hm.2⟩
  · intro hnil
    rw [hnil] at hce
    simp at hce
  · exact fun r hr => List.all_eq_true.mp hca r hr
  · intro hnil
    rw [hnil] at hfe
    simp at hfe
  · exact fun r hr => List.all_eq_true.mp hfa r hr

/-- Master characterization: on a well-formed document the extractor succeeds
and returns the location cell together with the two fully coerced tables. -/
lemma extract_sun_ok {doc : SunDoc} (h : sunDocOK doc = true) :
    extract_Sun_dataframes_from_dict doc =
      Except.ok (rawCell ("plaats") doc.plaatsnaam.headI,
        mapDF (dfKeys doc.current) doc.current curCellF,
        mapDF (dfKeys doc.forecast) doc.forecast fcCellF) := by
  obtain ⟨⟨r0, rest, hpn, hsome⟩, hcne, hcall, hfne, hfall⟩ := sunDocOK_parts h
  have mpl : ("plaats" : String) ∈ dfKeys doc.plaatsnaam :=
    mem_dfKeys (by rw [hpn]; exact List.mem_cons_self r0 rest) (lookup_isSome_mem hsome)
  unfold extract_Sun_dataframes_from_dict
  rw [getCol_from_dict mpl]
  simp only [ok_bind]
  rw [hpn]
  have hh : headCell ((r0 :: rest).map (rawCell ("plaats"))) =
      Except.ok (rawCell ("plaats") r0) := by
    simp [headCell]
  rw [hh]
  simp only [ok_bind]
  rw [processCurrent_ok hcne hcall]
  simp only [ok_bind]
  rw [processForecast_ok hfne hfall]
  simp only [ok_bind, pure_eq_ok]
  rfl

/- ### Column-level helpers for the claim theorems -/

lemma nrows_mapDF {keys : List String} {rows : List Record}
    {F : String → Record → Cell} (hk : keys ≠ []) :
    (mapDF keys rows F).nrows = rows.length := by
  cases keys with
  | nil => exact absurd rfl hk
  | cons k ks => simp [mapDF, DF.nrows]

lemma colNames_mapDF (keys : List String) (rows : List Record)
    (F : String → Record → Cell) : (mapDF keys rows F).colNames = keys := by
  simp only [mapDF, DF.colNames, List.map_map]
  have : (Prod.fst ∘ fun k => (k, List.map (F k) rows)) = id := by
    funext k
    rfl
  rw [this, List.map_id]

lemma col_cells_num {keys : List String} {rows : List Record}
    {F : String → Record → Cell} {k : String} (hnd : keys.Nodup) (hk : k ∈ keys)
    (hval : ∀ r ∈ rows, ∃ q, F k r = Cell.cnum q) :
    ∃ cells, (mapDF keys rows F).getCol k = Except.ok cells ∧
      ∀ c ∈ cells, ∃ q, c = Cell.cnum q := by
  refine ⟨rows.map (F k), getCol_mapDF hnd hk, ?_⟩
  intro c hc
  obtain ⟨r, hr, rfl⟩ := List.mem_map.mp hc
  exact hval r hr

lemma col_cells_time {keys : List String} {rows : List Record}
    {F : String → Record → Cell} {k : String} (hnd : keys.Nodup) (hk : k ∈ keys)
    (hval : ∀ r ∈ rows, ∃ t, F k r = Cell.ctime t) :
    ∃ cells, (mapDF keys rows F).getCol k = Except.ok cells ∧
      ∀ c ∈ cells, ∃ t, c = Cell.ctime t := by
  refine ⟨rows.map (F k), getCol_mapDF hnd hk, ?_⟩
  intro c hc
  obtain ⟨r, hr, rfl⟩ := List.mem_map.mp hc
  exact hval r hr

/- ### Claim theorems -/

/-- C1: for every well-formed sun-dataset document the extractor builds the
`sr` and `ss` columns of the current table row-wise as the
`%d-%m-%Y %H:%M`-parse of: the first 10 characters of that row's own `cet`
string, one space, and the row's original time-of-day string.  The splice
reads `cet` while it is still a string (before `cet`'s own conversion), so
each derived timestamp's date equals the date of that row's `cet` value and
its time equals the original `sr`/`ss` string. -/
theorem C1_sunrise_sunset_splice (doc : SunDoc) (h : sunDocOK doc = true) :
    ∃ loc cur fc, extract_Sun_dataframes_from_dict doc = Except.ok (loc, cur, fc) ∧
      cur.getCol ("sr") = Except.ok (doc.current.map (sunC ("sr"))) ∧
      cur.getCol ("ss") = Except.ok (doc.current.map (sunC ("ss"))) ∧
      (∀ r ∈ doc.current, ∀ cs ts t hh mm,
        lookupRec r ("cet") = some (JVal.jstr cs) → parseDTs cs = some t →
        lookupRec r ("sr") = some (JVal.jstr ts) → parseHMs ts = some (hh, mm) →
        splC ("sr") r = Cell.cstr (String.mk (cs.data.take 10) ++ (" ") ++ ts) ∧
        sunC ("sr") r = Cell.ctime ⟨t.year, t.month, t.day, hh, mm⟩) ∧
      (∀ r ∈ doc.current, ∀ cs ts t hh mm,
        lookupRec r ("cet") = some (JVal.jstr cs) → parseDTs cs = some t →
        lookupRec r ("ss") = some (JVal.jstr ts) → parseHMs ts = some (hh, mm) →
        splC ("ss") r = Cell.cstr (String.mk (cs.data.take 10) ++ (" ") ++ ts) ∧
        sunC ("ss") r = Cell.ctime ⟨t.year, t.month, t.day, hh, mm⟩) := by
  obtain ⟨_, hcne, hcall, _, _⟩ := sunDocOK_parts h
  obtain ⟨c0, hc0⟩ := List.exists_mem_of_ne_nil _ hcne
  have hp0 := currentRecOK_parts (hcall c0 hc0)
  have hnd := dfKeys_nodup doc.current
  have msr : ("sr" : String) ∈ dfKeys doc.current :=
    mem_dfKeys hc0 (lookup_isSome_mem (isHMStr_isSome hp0.2.1))
  have mss : ("ss" : String) ∈ dfKeys doc.current :=
    mem_dfKeys hc0 (lookup_isSome_mem (isHMStr_isSome hp0.2.2.1))
  refine ⟨_, _, _, extract_sun_ok h, ?_, ?_, ?_, ?_⟩
  · rw [@getCol_mapDF _ _ curCellF ("sr") hnd msr]
    exact congrArg Except.ok (List.map_congr_left (fun r _ => by simp [curCellF, updCell]))
  · rw [@getCol_mapDF _ _ curCellF ("ss") hnd mss]
    exact congrArg Except.ok (List.map_congr_left (fun r _ => by simp [curCellF, updCell]))
  · intro r _ cs ts t hh mm h1 h2 h3 h4
    obtain ⟨_, hb, _, hd⟩ := sunC_spec h1 h2 h3 h4
    exact ⟨hb, hd⟩
  · intro r _ cs ts t hh mm h1 h2 h3 h4
    obtain ⟨_, hb, _, hd⟩ := sunC_spec h1 h2 h3 h4
    exact ⟨hb, hd⟩

/-- C2: for every well-formed sun-dataset document, extraction returns the
location value of `plaatsnaam[0].plaats`, a current table with one row per
`current` record, and a forecast table with one row per `forecast` record,
with columns in first-seen key order. -/
theorem C2_result_shape (doc : SunDoc) (h : sunDocOK doc = true) :
    ∃ loc cur fc, extract_Sun_dataframes_from_dict doc = Except.ok (loc, cur, fc) ∧
      (∀ r0 rest v, doc.plaatsnaam = r0 :: rest → lookupRec r0 ("plaats") = some v →
        loc = cellOfJVal v) ∧
      cur.nrows = doc.current.length ∧ fc.nrows = doc.forecast.length ∧
      cur.colNames = dfKeys doc.current ∧ fc.colNames = dfKeys doc.forecast := by
  obtain ⟨_, hcne, hcall, hfne, hfall⟩ := sunDocOK_parts h
  obtain ⟨c0, hc0⟩ := List.exists_mem_of_ne_nil _ hcne
  have hpc := currentRecOK_parts (hcall c0 hc0)
  have mcet : ("cet" : String) ∈ dfKeys doc.current :=
    mem_dfKeys hc0 (lookup_isSome_mem (isDTStr_isSome hpc.1))
  obtain ⟨f0, hf0⟩ := List.exists_mem_of_ne_nil _ hfne
  have hpf := forecastRecOK_parts (hfall f0 hf0)
  have mfcet : ("cet" : String) ∈ dfKeys doc.forecast :=
    mem_dfKeys hf0 (lookup_isSome_mem (isDTStr_isSome hpf.1))
  refine ⟨_, _, _, extract_sun_ok h, ?_, ?_, ?_, ?_, ?_⟩
  · intro r0 rest v hpn hv
    rw [hpn]
    exact rawCell_eq_some hv
  · exact nrows_mapDF (List.ne_nil_of_mem mcet)
  · exact nrows_mapDF (List.ne_nil_of_mem mfcet)
  · exact colNames_mapDF _ _ _
  · exact colNames_mapDF _ _ _

/-- C5: after extraction on a well-formed document, the columns `time`,
`elev`, `az`, `temp`, `gr`, `sd`, `tc`, `vis`, `prec` of the current table
and additionally `lc`, `mc`, `hc` of the forecast table hold numeric values
(never strings), and the `cet` column of both tables holds timestamps. -/
theorem C5_typed_columns (doc : SunDoc) (h : sunDocOK doc = true) :
    ∃ loc cur fc, extract_Sun_dataframes_from_dict doc = Except.ok (loc, cur, fc) ∧
      (∀ k ∈ (["time", "elev", "az", "temp", "gr", "sd", "tc", "vis", "prec"] :
          List String),
        ∃ cells, cur.getCol k = Except.ok cells ∧ ∀ c ∈ cells, ∃ q, c = Cell.cnum q) ∧
      (∀ k ∈ (["time", "elev", "az", "temp", "gr", "sd", "tc", "lc", "mc", "hc",
          "vis", "prec"] : List String),
        ∃ cells, fc.getCol k = Except.ok cells ∧ ∀ c ∈ cells, ∃ q, c = Cell.cnum q) ∧
      (∃ cells, cur.getCol ("cet") = Except.ok cells ∧
        ∀ c ∈ cells, ∃ t, c = Cell.ctime t) ∧
      (∃ cells, fc.getCol ("cet") = Except.ok cells ∧
        ∀ c ∈ cells, ∃ t, c = Cell.ctime t) := by
  obtain ⟨_, hcne, hcall, hfne, hfall⟩ := sunDocOK_parts h
  obtain ⟨c0, hc0⟩ := List.exists_mem_of_ne_nil _ hcne
  have hpc := currentRecOK_parts (hcall c0 hc0)
  obtain ⟨f0, hf0⟩ := List.exists_mem_of_ne_nil _ hfne
  have hpf := forecastRecOK_parts (hfall f0 hf0)
  have hndc := dfKeys_nodup doc.current
  have hndf := dfKeys_nodup doc.forecast
  have mccet : ("cet" : String) ∈ dfKeys doc.current :=
    mem_dfKeys hc0 (lookup_isSome_mem (isDTStr_isSome hpc.1))
  have mctime : ("time" : String) ∈ dfKeys doc.current :=
    mem_dfKeys hc0 (lookup_isSome_mem (isNumVal_isSome hpc.2.2.2.1))
  have mcelev : ("elev" : String) ∈ dfKeys doc.current :=
    mem_dfKeys hc0 (lookup_isSome_mem (isNumVal_isSome hpc.2.2.2.2.1))
  have mcaz : ("az" : String) ∈ dfKeys doc.current :=
    mem_dfKeys hc0 (lookup_isSome_mem (isNumVal_isSome hpc.2.2.2.2.2.1))
  have mctemp : ("temp" : String) ∈ dfKeys doc.current :=
    mem_dfKeys hc0 (lookup_isSome_mem (isNumVal_isSome hpc.2.2.2.2.2.2.1))
  have mcgr : ("gr" : String) ∈ dfKeys doc.current :=
    mem_dfKeys hc0 (lookup_isSome_mem (isNumVal_isSome hpc.2.2.2.2.2.2.2.1))
  have mcsd : ("sd" : String) ∈ dfKeys doc.current :=
    mem_dfKeys hc0 (lookup_isSome_mem (isNumVal_isSome hpc.2.2.2.2.2.2.2.2.1))
  have mctc : ("tc" : String) ∈ dfKeys doc.current :=
    mem_dfKeys hc0 (lookup_isSome_mem (isNumVal_isSome hpc.2.2.2.2.2.2.2.2.2.1))
  have mcvis : ("vis" : String) ∈ dfKeys doc.current :=
    mem_dfKeys hc0 (lookup_isSome_mem (isNumVal_isSome hpc.2.2.2.2.2.2.2.2.2.2.1))
  have mcprec : ("prec" : String) ∈ dfKeys doc.current :=
    mem_dfKeys hc0 (lookup_isSome_mem (isNumVal_isSome hpc.2.2.2.2.2.2.2.2.2.2.2))
  have mfcet : ("cet" : String) ∈ dfKeys doc.forecast :=
    mem_dfKeys hf0 (lookup_isSome_mem (isDTStr_isSome hpf.1))
  have mftime : ("time" : String) ∈ dfKeys doc.forecast :=
    mem_dfKeys hf0 (lookup_isSome_mem (isNumVal_isSome hpf.2.1))
  have mfelev : ("elev" : String) ∈ dfKeys doc.forecast :=
    mem_dfKeys hf0 (lookup_isSome_mem (isNumVal_isSome hpf.2.2.1))
  have mfaz : ("az" : String) ∈ dfKeys doc.forecast :=
    mem_dfKeys hf0 (lookup_isSome_mem (isNumVal_isSome hpf.2.2.2.1))
  have mftemp : ("temp" : String) ∈ dfKeys doc.forecast :=
    mem_dfKeys hf0 (lookup_isSome_mem (isNumVal_isSome hpf.2.2.2.2.1))
  have mfgr : ("gr" : String) ∈ dfKeys doc.forecast :=
    mem_dfKeys hf0 (lookup_isSome_mem (isNumVal_isSome hpf.2.2.2.2.2.1))
  have mfsd : ("sd" : String) ∈ dfKeys doc.forecast :=
    mem_dfKeys hf0 (lookup_isSome_mem (isNumVal_isSome hpf.2.2.2.2.2.2.1))
  have mftc : ("tc" : String) ∈ dfKeys doc.forecast :=
    mem_dfKeys hf0 (lookup_isSome_mem (isNumVal_isSome hpf.2.2.2.2.2.2.2.1))
  have mflc : ("lc" : String) ∈ dfKeys doc.forecast :=
    mem_dfKeys hf0 (lookup_isSome_mem (isNumVal_isSome hpf.2.2.2.2.2.2.2.2.1))
  have mfmc : ("mc" : String) ∈ dfKeys doc.forecast :=
    mem_dfKeys hf0 (lookup_isSome_mem (isNumVal_isSome hpf.2.2.2.2.2.2.2.2.2.1))
  have mfhc : ("hc" : String) ∈ dfKeys doc.forecast :=
    mem_dfKeys hf0 (lookup_isSome_mem (isNumVal_isSome hpf.2.2.2.2.2.2.2.2.2.2.1))
  have mfvis : ("vis" : String) ∈ dfKeys doc.forecast :=
    mem_dfKeys hf0 (lookup_isSome_mem (isNumVal_isSome hpf.2.2.2.2.2.2.2.2.2.2.2.1))
  have mfprec : ("prec" : String) ∈ dfKeys doc.forecast :=
    mem_dfKeys hf0 (lookup_isSome_mem (isNumVal_isSome hpf.2.2.2.2.2.2.2.2.2.2.2.2))
  refine ⟨_, _, _, extract_sun_ok h, ?_, ?_, ?_, ?_⟩
  · intro k hk
    simp only [List.mem_cons, List.not_mem_nil, or_false] at hk
    rcases hk with rfl | rfl | rfl | rfl | rfl | rfl | rfl | rfl | rfl
    · refine col_cells_num hndc mctime (fun r hr => ?_)
      have hq := (isNumVal_num (currentRecOK_parts (hcall r hr)).2.2.2.1).2
      obtain ⟨q, hq⟩ := hq
      exact ⟨q, by simp [curCellF, updCell, hq]⟩
    · refine col_cells_num hndc mcelev (fun r hr => ?_)
      have hq := (isNumVal_num (currentRecOK_parts (hcall r hr)).2.2.2.2.1).2
      obtain ⟨q, hq⟩ := hq
      exact ⟨q, by simp [curCellF, updCell, hq]⟩
    · refine col_cells_num hndc mcaz (fun r hr => ?_)
      have hq := (isNumVal_num (currentRecOK_parts (hcall r hr)).2.2.2.2.2.1).2
      obtain ⟨q, hq⟩ := hq
      exact ⟨q, by simp [curCellF, updCell, hq]⟩
    · refine col_cells_num hndc mctemp (fun r hr => ?_)
      have hq := (isNumVal_num (currentRecOK_parts (hcall r hr)).2.2.2.2.2.2.1).2
      obtain ⟨q, hq⟩ := hq
      exact ⟨q, by simp [curCellF, updCell, hq]⟩
    · refine col_cells_num hndc mcgr (fun r hr => ?_)
      have hq := (isNumVal_num (currentRecOK_parts (hcall r hr)).2.2.2.2.2.2.2.1).2
      obtain ⟨q, hq⟩ := hq
      exact ⟨q, by simp [curCellF, updCell, hq]⟩
    · refine col_cells_num hndc mcsd (fun r hr => ?_)
      have hq := (isNumVal_num (currentRecOK_parts (hcall r hr)).2.2.2.2.2.2.2.2.1).2
      obtain ⟨q, hq⟩ := hq
      exact ⟨q, by simp [curCellF, updCell, hq]⟩
    · refine col_cells_num hndc mctc (fun r hr => ?_)
      have hq := (isNumVal_num (currentRecOK_parts (hcall r hr)).2.2.2.2.2.2.2.2.2.1).2
      obtain ⟨q, hq⟩ := hq
      exact ⟨q, by simp [curCellF, updCell, hq]⟩
    · refine col_cells_num hndc mcvis (fun r hr => ?_)
      have hq := (isNumVal_num (currentRecOK_parts (hcall r hr)).2.2.2.2.2.2.2.2.2.2.1).2
      obtain ⟨q, hq⟩ := hq
      exact ⟨q, by simp [curCellF, updCell, hq]⟩
    · refine col_cells_num hndc mcprec (fun r hr => ?_)
      have hq := (isNumVal_num (currentRecOK_parts (hcall r hr)).2.2.2.2.2.2.2.2.2.2.2).2
      obtain ⟨q, hq⟩ := hq
      exact ⟨q, by simp [curCellF, updCell, hq]⟩
  · intro k hk
    simp only [List.mem_cons, List.not_mem_nil, or_false] at hk
    rcases hk with rfl | rfl | rfl | rfl | rfl | rfl | rfl | rfl | rfl | rfl | rfl | rfl
    · refine col_cells_num hndf mftime (fun r hr => ?_)
      have hq := (isNumVal_num (forecastRecOK_parts (hfall r hr)).2.1).2
      obtain ⟨q, hq⟩ := hq
      exact ⟨q, by simp [fcCellF, updCell, hq]⟩
    · refine col_cells_num hndf mfelev (fun r hr => ?_)
      have hq := (isNumVal_num (forecastRecOK_parts (hfall r hr)).2.2.1).2
      obtain ⟨q, hq⟩ := hq
      exact ⟨q, by simp [fcCellF, updCell, hq]⟩
    · refine col_cells_num hndf mfaz (fun r hr => ?_)
      have hq := (isNumVal_num (forecastRecOK_parts (hfall r hr)).2.2.2.1).2
      obtain ⟨q, hq⟩ := hq
      exact ⟨q, by simp [fcCellF, updCell, hq]⟩
    · refine col_cells_num hndf mftemp (fun r hr => ?_)
      have hq := (isNumVal_num (forecastRecOK_parts (hfall r hr)).2.2.2.2.1).2
      obtain ⟨q, hq⟩ := hq
      exact ⟨q, by simp [fcCellF, updCell, hq]⟩
    · refine col_cells_num hndf mfgr (fun r hr => ?_)
      have hq := (isNumVal_num (forecastRecOK_parts (hfall r hr)).2.2.2.2.2.1).2
      obtain ⟨q, hq⟩ := hq
      exact ⟨q, by simp [fcCellF, updCell, hq]⟩
    · refine col_cells_num hndf mfsd (fun r hr => ?_)
      have hq := (isNumVal_num (forecastRecOK_parts (hfall r hr)).2.2.2.2.2.2.1).2
      obtain ⟨q, hq⟩ := hq
      exact ⟨q, by simp [fcCellF, updCell, hq]⟩
    · refine col_cells_num hndf mftc (fun r hr => ?_)
      have hq := (isNumVal_num (forecastRecOK_parts (hfall r hr)).2.2.2.2.2.2.2.1).2
      obtain ⟨q, hq⟩ := hq
      exact ⟨q, by simp [fcCellF, updCell, hq]⟩
    · refine col_cells_num hndf mflc (fun r hr => ?_)
      have hq := (isNumVal_num (forecastRecOK_parts (hfall r hr)).2.2.2.2.2.2.2.2.1).2
      obtain ⟨q, hq⟩ := hq
      exact ⟨q, by simp [fcCellF, updCell, hq]⟩
    · refine col_cells_num hndf mfmc (fun r hr => ?_)
      have hq := (isNumVal_num (forecastRecOK_parts (hfall r hr)).2.2.2.2.2.2.2.2.2.1).2
      obtain ⟨q, hq⟩ := hq
      exact ⟨q, by simp [fcCellF, updCell, hq]⟩
    · refine col_cells_num hndf mfhc (fun r hr => ?_)
      have hq := (isNumVal_num (forecastRecOK_parts (hfall r hr)).2.2.2.2.2.2.2.2.2.2.1).2
      obtain ⟨q, hq⟩ := hq
      exact ⟨q, by simp [fcCellF, updCell, hq]⟩
    · refine col_cells_num hndf mfvis (fun r hr => ?_)
      have hq := (isNumVal_num (forecastRecOK_parts (hfall r hr)).2.2.2.2.2.2.2.2.2.2.2.1).2
      obtain ⟨q, hq⟩ := hq
      exact ⟨q, by simp [fcCellF, updCell, hq]⟩
    · refine col_cells_num hndf mfprec (fun r hr => ?_)
      have hq := (isNumVal_num (forecastRecOK_parts (hfall r hr)).2.2.2.2.2.2.2.2.2.2.2.2).2
      obtain ⟨q, hq⟩ := hq
      exact ⟨q, by simp [fcCellF, updCell, hq]⟩
  · refine col_cells_time hndc mccet (fun r hr => ?_)
    obtain ⟨s, t, _, _, _, _, h5⟩ := isDTStr_dt (currentRecOK_parts (hcall r hr)).1
    exact ⟨t, by simp [curCellF, updCell, h5]⟩
  · refine col_cells_time hndf mfcet (fun r hr => ?_)
    obtain ⟨s, t, _, _, _, _, h5⟩ := isDTStr_dt (forecastRecOK_parts (hfall r hr)).1
    exact ⟨t, by simp [fcCellF, updCell, h5]⟩

/-- Witness for C1 at the concrete example document. -/
theorem C1_witness : sunDocOK exDoc = true ∧
    (∃ loc cur fc, extract_Sun_dataframes_from_dict exDoc = Except.ok (loc, cur, fc) ∧
      cur.getCol ("sr") = Except.ok (exDoc.current.map (sunC ("sr"))) ∧
      cur.getCol ("ss") = Except.ok (exDoc.current.map (sunC ("ss"))) ∧
      (∀ r ∈ exDoc.current, ∀ cs ts t hh mm,
        lookupRec r ("cet") = some (JVal.jstr cs) → parseDTs cs = some t →
        lookupRec r ("sr") = some (JVal.jstr ts) → parseHMs ts = some (hh, mm) →
        splC ("sr") r = Cell.cstr (String.mk (cs.data.take 10) ++ (" ") ++ ts) ∧
        sunC ("sr") r = Cell.ctime ⟨t.year, t.month, t.day, hh, mm⟩) ∧
      (∀ r ∈ exDoc.current, ∀ cs ts t hh mm,
        lookupRec r ("cet") = some (JVal.jstr cs) → parseDTs cs = some t →
        lookupRec r ("ss") = some (JVal.jstr ts) → parseHMs ts = some (hh, mm) →
        splC ("ss") r = Cell.cstr (String.mk (cs.data.take 10) ++ (" ") ++ ts) ∧
        sunC ("ss") r = Cell.ctime ⟨t.year, t.month, t.day, hh, mm⟩)) :=
  ⟨by decide, C1_sunrise_sunset_splice exDoc (by decide)⟩

/-- Witness for C2 at the concrete example document. -/
theorem C2_witness : sunDocOK exDoc = true ∧
    (∃ loc cur fc, extract_Sun_dataframes_from_dict exDoc = Except.ok (loc, cur, fc) ∧
      (∀ r0 rest v, exDoc.plaatsnaam = r0 :: rest → lookupRec r0 ("plaats") = some v →
        loc = cellOfJVal v) ∧
      cur.nrows = exDoc.current.length ∧ fc.nrows = exDoc.forecast.length ∧
      cur.colNames = dfKeys exDoc.current ∧ fc.colNames = dfKeys exDoc.forecast) :=
  ⟨by decide, C2_result_shape exDoc (by decide)⟩

/-- Witness for C5 at the concrete example document. -/
theorem C5_witness : sunDocOK exDoc = true ∧
    (∃ loc cur fc, extract_Sun_dataframes_from_dict exDoc = Except.ok (loc, cur, fc) ∧
      (∀ k ∈ (["time", "elev", "az", "temp", "gr", "sd", "tc", "vis", "prec"] :
          List String),
        ∃ cells, cur.getCol k = Except.ok cells ∧ ∀ c ∈ cells, ∃ q, c = Cell.cnum q) ∧
      (∀ k ∈ (["time", "elev", "az", "temp", "gr", "sd", "tc", "lc", "mc", "hc",
          "vis", "prec"] : List String),
        ∃ cells, fc.getCol k = Except.ok cells ∧ ∀ c ∈ cells, ∃ q, c = Cell.cnum q) ∧
      (∃ cells, cur.getCol ("cet") = Except.ok cells ∧
        ∀ c ∈ cells, ∃ t, c = Cell.ctime t) ∧
      (∃ cells, fc.getCol ("cet") = Except.ok cells ∧
        ∀ c ∈ cells, ∃ t, c = Cell.ctime t)) :=
  ⟨by decide, C5_typed_columns exDoc (by decide)⟩

/- ### Helpers for the serialization and reader claims -/

@[simp] lemma isOk_ok {α : Type} (a : α) : (Except.ok a : Except String α).isOk = true := rfl

@[simp] lemma isOk_error {α : Type} (e : String) :
    (Except.error e : Except String α).isOk = false := rfl

lemma mapM_ok_of_forall {α β : Type} (l : List α) (f : α → Except String β) (g : α → β)
    (h : ∀ a ∈ l, f a = Except.ok (g a)) : l.mapM f = Except.ok (l.map g) := by
  induction l with
  | nil => rfl
  | cons a l ih =>
    rw [List.map_cons, List.mapM_cons, h a (List.mem_cons_self a l), ok_bind,
      ih (fun x hx => h x (List.mem_cons_of_mem a hx)), ok_bind, pure_eq_ok]

lemma cell_of_toRecords {df : DF} (h : df.cellsEncodable = true) :
    ∀ rec ∈ df.toRecords, ∀ p ∈ rec, (jsonEncodeCell p.2).isOk = true := by
  intro rec hrec p hp
  unfold DF.toRecords at hrec
  obtain ⟨i, _, rfl⟩ := List.mem_map.mp hrec
  obtain ⟨col, hcol, rfl⟩ := List.mem_map.mp hp
  show (jsonEncodeCell (col.2.getD i Cell.cnan)).isOk = true
  rcases hg : col.2[i]? with _ | c
  · rw [List.getD_eq_getElem?_getD, hg]
    rfl
  · rw [List.getD_eq_getElem?_getD, hg]
    have hmem : c ∈ col.2 := by
      obtain ⟨hlt, rfl⟩ := List.getElem?_eq_some_iff.mp hg
      exact List.getElem_mem hlt
    unfold DF.cellsEncodable at h
    have hcolok := List.all_eq_true.mp h col hcol
    exact List.all_eq_true.mp hcolok c hmem

lemma encRows_ok {df : DF} (h : df.cellsEncodable = true) :
    df.toRecords.mapM (fun r => r.mapM (fun p => do
      let v ← jsonEncodeCell p.2
      pure (p.1, v))) = Except.ok (encRecords df) := by
  unfold encRecords
  apply mapM_ok_of_forall
  intro rec hrec
  apply mapM_ok_of_forall
  intro p hp
  have hok := cell_of_toRecords h rec hrec p hp
  cases he : jsonEncodeCell p.2 with
  | error e =>
    rw [he] at hok
    simp at hok
  | ok v =>
    simp only [ok_bind, pure_eq_ok]
    have hv : encodeD p.2 = v := by
      unfold encodeD
      rw [he]
    rw [hv]

lemma extract_isOk_false_of_forecast {doc : SunDoc}
    (hf : (processForecast (DataFrame_from_dict doc.forecast)).isOk = false) :
    (extract_Sun_dataframes_from_dict doc).isOk = false := by
  unfold extract_Sun_dataframes_from_dict
  cases h1 : (DataFrame_from_dict doc.plaatsnaam).getCol ("plaats") with
  | error e => rfl
  | ok pc =>
    simp only [ok_bind]
    cases h2 : headCell pc with
    | error e => rfl
    | ok lc =>
      simp only [ok_bind]
      cases h3 : processCurrent (DataFrame_from_dict doc.current) with
      | error e => rfl
      | ok cur =>
        simp only [ok_bind]
        cases h4 : processForecast (DataFrame_from_dict doc.forecast) with
        | error e => rfl
        | ok fc =>
          rw [h4] at hf
          simp at hf

/-- C6: the hourly-weather extractor builds its table solely as the
structural conversion of the `data` list — one row per record, columns in
first-seen key order, each cell the record's own JSON value with its native
type kept (numbers stay numeric, strings stay strings), with no per-column
coercion applied. -/
theorem C6_hourly_no_coercion (doc : UurDoc) :
    extract_hourly_forecast_dataframes_from_dict doc = DataFrame_from_dict doc.data ∧
    (∀ k ∈ dfKeys doc.data,
      (extract_hourly_forecast_dataframes_from_dict doc).getCol k =
        Except.ok (doc.data.map (rawCell k)) ∧
      (doc.data.map (rawCell k)).length = doc.data.length) ∧
    (∀ r k v, lookupRec r k = some v → rawCell k r = cellOfJVal v) ∧
    (∀ s, cellOfJVal (JVal.jstr s) = Cell.cstr s) ∧
    (∀ q, cellOfJVal (JVal.jnum q) = Cell.cnum q) := by
  refine ⟨rfl, ?_, ?_, fun s => rfl, fun q => rfl⟩
  · intro k hk
    exact ⟨getCol_from_dict hk, by simp⟩
  · intro r k v hv
    exact rawCell_eq_some hv

/-- Witness for C6 at a concrete hourly document with mixed value types. -/
theorem C6_witness :
    extract_hourly_forecast_dataframes_from_dict exUurDoc =
      DataFrame_from_dict exUurDoc.data ∧
    rawCell ("winds") exRecUur = cellOfJVal (JVal.jstr ("NW")) ∧
    rawCell ("temp") exRecUur = Cell.cnum 5 :=
  ⟨(C6_hourly_no_coercion exUurDoc).1,
   (C6_hourly_no_coercion exUurDoc).2.2.1 exRecUur ("winds") (JVal.jstr ("NW")) (by decide),
   by decide⟩

/-- C7 counterexample: a table containing a timestamp cell (as every table
produced by the sun extractor does) cannot be serialized — `json.dump`
raises `TypeError`, so no document with the claimed shape is written. -/
theorem C7_counterexample :
    (write_json_file_sunData ("sun.json") ("De Bilt")
      (⟨[(("cet"), [Cell.ctime ⟨2021, 1, 1, 10, 0⟩])]⟩ : DF) (⟨[]⟩ : DF)).isOk =
      false := by decide

/-- C7 (amended): for every location string and every pair of tables whose
cells are all JSON-encodable (strings, numbers or NaN — no timestamps),
`write_json_file_sunData` writes a single document whose top-level object
maps `plaatsnaam` to a one-element list wrapping the location under
`plaats`, `current` to the current table's rows as field-to-value mappings
in column order, and `forecast` to the analogous list for the forecast
table. -/
theorem C7_amended (fileName location : String) (current forecast : DF)
    (hc : current.cellsEncodable = true) (hf : forecast.cellsEncodable = true) :
    write_json_file_sunData fileName location current forecast =
      Except.ok ⟨[[(("plaats"), JVal.jstr location)]],
        encRecords current, encRecords forecast⟩ := by
  unfold write_json_file_sunData
  rw [encRows_ok hc]
  simp only [ok_bind]
  rw [encRows_ok hf]
  simp only [ok_bind, pure_eq_ok]

/-- Witness for C7's amended statement at concrete encodable tables. -/
theorem C7_witness :
    (⟨[(("a"), [Cell.cstr ("x"), Cell.cnum 2])]⟩ : DF).cellsEncodable = true ∧
    write_json_file_sunData ("f.json") ("L")
        (⟨[(("a"), [Cell.cstr ("x"), Cell.cnum 2])]⟩ : DF) (⟨[]⟩ : DF) =
      Except.ok ⟨[[(("plaats"), JVal.jstr ("L"))]],
        encRecords (⟨[(("a"), [Cell.cstr ("x"), Cell.cnum 2])]⟩ : DF),
        encRecords (⟨[]⟩ : DF)⟩ :=
  ⟨by decide, C7_amended ("f.json") ("L") _ _ (by decide) (by decide)⟩

/-- C4 (code bug): the round trip `extract ∘ write` cannot even start on
tables produced by extraction — the current table always carries timestamp
cells in `cet`/`sr`/`ss`, and `json.dump` raises `TypeError` on a
`pd.Timestamp`, so `write_json_file_sunData` fails on every extraction
result.  Evaluated here at the concrete example document. -/
theorem C4_roundtrip_bug :
    (extract_Sun_dataframes_from_dict exDoc).toOption.map
      (fun r => (write_json_file_sunData ("sun.json") ("De Bilt") r.2.1 r.2.2).isOk) =
      some false := by decide

/-- C8: both remote-fetch entry points build the request URL as the fixed
dataset base path followed by the location as the `locatie` query parameter
and the key as the `key` parameter, issue one GET (one application of the
transport oracle), decode the body as JSON and hand the document to the
corresponding extractor. -/
theorem C8_url_pipeline (key location : String) (loc : Bool)
    (httpGet : String → String) (jsonLoadsS : String → Except String SunDoc)
    (jsonLoadsU : String → Except String UurDoc) :
    read_json_url_sunData key location loc httpGet jsonLoadsS =
      (jsonLoadsS (httpGet
        ((("https://data.meteoserver.nl/api/solar.php?locatie=") ++ location) ++
          (("&key=") ++ key))) >>=
        fun d => extract_Sun_dataframes_from_dict d >>=
          fun r => if loc then Except.ok (SunReturn.three r.2.1 r.2.2 r.1)
            else Except.ok (SunReturn.two r.2.1 r.2.2)) ∧
    read_json_url_uurverwachting key location httpGet jsonLoadsU =
      (jsonLoadsU (httpGet
        ((("https://data.meteoserver.nl/api/uurverwachting_gfs.php?locatie=") ++
          location) ++ (("&key=") ++ key))) >>=
        fun d => Except.ok (extract_hourly_forecast_dataframes_from_dict d)) := by
  constructor
  · simp only [read_json_url_sunData]
    cases jsonLoadsS (httpGet
        ((("https://data.meteoserver.nl/api/solar.php?locatie=") ++ location) ++
          (("&key=") ++ key))) with
    | error e => rfl
    | ok d =>
      simp only [ok_bind]
      cases extract_Sun_dataframes_from_dict d with
      | error e => rfl
      | ok r =>
        obtain ⟨l, cur, fc⟩ := r
        cases loc <;> rfl
  · simp only [read_json_url_uurverwachting]
    cases jsonLoadsU (httpGet
        ((("https://data.meteoserver.nl/api/uurverwachting_gfs.php?locatie=") ++
          location) ++ (("&key=") ++ key))) with
    | error e => rfl
    | ok d => rfl

/-- C9: at the public reading interface, both sun readers return the pair
`(current, forecast)` when `loc` is false and the triple
`(current, forecast, location)` when `loc` is true — the location name comes
last, unlike the extractor's `(location, current, forecast)` order. -/
theorem C9_return_tuple_order (key location fileJSON : String)
    (httpGet readFile : String → String) (jsonLoads : String → Except String SunDoc)
    (doc : SunDoc) (l : Cell) (cur fc : DF)
    (hurl : jsonLoads (httpGet
      ((("https://data.meteoserver.nl/api/solar.php?locatie=") ++ location) ++
        (("&key=") ++ key))) = Except.ok doc)
    (hfile : jsonLoads (readFile fileJSON) = Except.ok doc)
    (hex : extract_Sun_dataframes_from_dict doc = Except.ok (l, cur, fc)) :
    read_json_url_sunData key location false httpGet jsonLoads =
      Except.ok (SunReturn.two cur fc) ∧
    read_json_url_sunData key location true httpGet jsonLoads =
      Except.ok (SunReturn.three cur fc l) ∧
    read_json_file_sunData fileJSON false readFile jsonLoads =
      Except.ok (SunReturn.two cur fc) ∧
    read_json_file_sunData fileJSON true readFile jsonLoads =
      Except.ok (SunReturn.three cur fc l) := by
  refine ⟨?_, ?_, ?_, ?_⟩ <;>
    simp only [read_json_url_sunData, read_json_file_sunData, hurl, hfile, ok_bind,
      hex, Bool.false_eq_true, if_false, if_true, pure_eq_ok]

/-- Witness for C9 with concrete transport and decode oracles. -/
theorem C9_witness :
    read_json_url_sunData ("k") ("De Bilt") false (fun _ => (""))
        (fun _ => Except.ok exDoc) = Except.ok (SunReturn.two exCur exFc) ∧
    read_json_url_sunData ("k") ("De Bilt") true (fun _ => (""))
        (fun _ => Except.ok exDoc) =
      Except.ok (SunReturn.three exCur exFc (Cell.cstr ("De Bilt"))) ∧
    read_json_file_sunData ("sun.json") false (fun _ => (""))
        (fun _ => Except.ok exDoc) = Except.ok (SunReturn.two exCur exFc) ∧
    read_json_file_sunData ("sun.json") true (fun _ => (""))
        (fun _ => Except.ok exDoc) =
      Except.ok (SunReturn.three exCur exFc (Cell.cstr ("De Bilt"))) :=
  C9_return_tuple_order ("k") ("De Bilt") ("sun.json") (fun _ => (""))
    (fun _ => ("")) (fun _ => Except.ok exDoc) exDoc (Cell.cstr ("De Bilt"))
    exCur exFc rfl rfl (by decide)

/-- C10: neither extractor changes the input document: all splicing and
coercion is applied to freshly built dataframes.  Stated on the
state-threaded transliterations, which return the document state after the
last statement. -/
theorem C10_input_unchanged :
    (∀ (doc : SunDoc) (r : Cell × DF × DF) (doc' : SunDoc),
      extract_Sun_dataframes_from_dict_st doc = Except.ok (r, doc') →
        doc' = doc ∧ extract_Sun_dataframes_from_dict doc = Except.ok r) ∧
    (∀ (doc : UurDoc),
      (extract_hourly_forecast_dataframes_from_dict_st doc).2 = doc) := by
  constructor
  · intro doc r doc' h
    have hmap : extract_Sun_dataframes_from_dict_st doc =
        (extract_Sun_dataframes_from_dict doc).map (fun r => (r, doc)) := by
      unfold extract_Sun_dataframes_from_dict_st extract_Sun_dataframes_from_dict
      simp only [exmap_bind]
      rfl
    rw [hmap] at h
    cases hx : extract_Sun_dataframes_from_dict doc with
    | error e =>
      rw [hx] at h
      simp [Except.map] at h
    | ok rr =>
      rw [hx] at h
      simp only [Except.map, Except.ok.injEq, Prod.mk.injEq] at h
      exact ⟨h.2.symm, by rw [h.1]⟩
  · intro doc
    rfl

/-- Witness for C10's state-threaded extraction at the example document. -/
theorem C10_witness :
    extract_Sun_dataframes_from_dict_st exDoc =
      Except.ok ((Cell.cstr ("De Bilt"), exCur, exFc), exDoc) ∧
    exDoc = exDoc ∧
    extract_Sun_dataframes_from_dict exDoc =
      Except.ok (Cell.cstr ("De Bilt"), exCur, exFc) :=
  ⟨by decide, rfl,
   ((C10_input_unchanged.1 exDoc (Cell.cstr ("De Bilt"), exCur, exFc) exDoc
      (by decide)).2)⟩

/- ### C3: missing fields are NaN-defaulted, coercion failures are fatal -/

lemma dfKeys_singleton (r : Record) : dfKeys [r] = insertKeys [] (r.map Prod.fst) := rfl

